import Mathlib

/-!
# libdrm GPGPU examples: command stream and state buffer images

A shallow embedding of `example_bdw.c` (Broadwell, gen8) and `example_hsw.c`
(Haswell, gen7): the batch builders, the state-buffer builders and the
sequence of buffer-manager calls issued by `main`.

Conventions of the embedding.

* A byte array is a function from byte offsets to byte values (`Mem`).  The
  C code only accesses the staging arrays through `uint32_t *` / `int *`
  pointers and structs of 32-bit units; such an access is a little-endian
  4-byte `load32` / `store32` (x86, the only host of these programs).
* A bit-field of a `uint32_t` unit is allocated from the least significant
  bit in declaration order (the x86 System V convention); every struct word
  is described by the list of its field widths in declaration order.
* `OUT_BATCH(x)` is `batch[i++] = x` with `i` starting at `0`, so the batch
  array prefix written by a builder is the list of emitted words, in order.
* `main` is the list of its buffer-manager calls with their literal
  arguments, in program order; the staging arrays it uploads are the images
  produced by the builders from zeroed arrays.
-/

namespace GpgpuExamples

/-! ## Memory -/

/-- A byte image indexed by byte offset. -/
abbrev Mem := Nat → Nat

/-- An array initialised with `= {0}`. -/
def zeroMem : Mem := fun _ => 0

/-- The store `*(uint32_t *)(base + a) = v`, little-endian. -/
def store32 (m : Mem) (a v : Nat) : Mem := fun b =>
  if b = a then v % 256
  else if b = a + 1 then v / 256 % 256
  else if b = a + 2 then v / 65536 % 256
  else if b = a + 3 then v / 16777216 % 256
  else m b

/-- The load `*(uint32_t *)(base + a)`, little-endian. -/
def load32 (m : Mem) (a : Nat) : Nat :=
  m a + 256 * m (a + 1) + 65536 * m (a + 2) + 16777216 * m (a + 3)

/-! ## Command opcodes (identical in both files) -/

/-- The macro `CMD(PIPELINE, OP, SUB_OP)`. -/
def CMD (PIPELINE OP SUB_OP : Nat) : Nat :=
  (3 <<< 29) ||| (PIPELINE <<< 27) ||| (OP <<< 24) ||| (SUB_OP <<< 16)

def CMD_PIPE_CONTROL : Nat := CMD 3 2 0
def CMD_PIPELINE_SELECT : Nat := CMD 1 1 4
def PIPELINE_SELECT_GPGPU : Nat := 2
def CMD_STATE_BASE_ADDRESS : Nat := CMD 0 1 1
def CMD_MEDIA_STATE_POINTERS : Nat := CMD 2 0 0
def CMD_MEDIA_CURBE_LOAD : Nat := CMD 2 0 1
def CMD_MEDIA_INTERFACE_DESCRIPTOR_LOAD : Nat := CMD 2 0 2
def CMD_GPGPU_WALKER : Nat := CMD 2 1 5
def CMD_MEDIA_STATE_FLUSH : Nat := CMD 2 0 4
def CMD_LOAD_REGISTER_IMM : Nat := 0x22 <<< 23
def CMD_BATCH_BUFFER_END : Nat := 0xA <<< 23

def GEN8_L3_CNTL_REG_ADDRESS_OFFSET : Nat := 0x7034
def HSW_SCRATCH1_OFFSET : Nat := 0xB038
def HSW_ROW_CHICKEN3_HDC_OFFSET : Nat := 0xE49C
def GEN7_L3_SQC_REG1_ADDRESS_OFFSET : Nat := 0xB010
def GEN7_L3_CNTL_REG2_ADDRESS_OFFSET : Nat := 0xB020
def GEN7_L3_CNTL_REG3_ADDRESS_OFFSET : Nat := 0xB024

def SRFC_OFFSET : Nat := 0x0400
def CURB_OFFSET : Nat := 0x4400
def IDRT_OFFSET : Nat := 0x8400

/-! ## Batch builders -/

/-- The macro `OUT_BATCH(x)`, i.e. `batch[i++] = x`: the state is the list of
words `batch[0..i)` and the new word is truncated to `uint32_t`. -/
def OUT_BATCH (batch : List Nat) (x : Nat) : List Nat :=
  batch ++ [x % 4294967296]

/-- Consecutive `OUT_BATCH` statements. -/
def OUT_BATCHES (batch : List Nat) (xs : List Nat) : List Nat :=
  xs.foldl OUT_BATCH batch

/-- The words emitted by `setup_batch0` of `example_bdw.c`, in order. -/
def setup_batch0 : List Nat :=
  OUT_BATCHES []
    [ CMD_PIPE_CONTROL ||| 4,
      0x00000000,
      0x00101420,
      0x00000000,
      0x00000000,
      0x00000000,

      CMD_LOAD_REGISTER_IMM ||| 1,
      GEN8_L3_CNTL_REG_ADDRESS_OFFSET,
      0x60000160,

      CMD_PIPE_CONTROL ||| 4,
      0x00000000,
      0x00101420,
      0x00000000,
      0x00000000,
      0x00000000,

      CMD_PIPELINE_SELECT ||| PIPELINE_SELECT_GPGPU,

      CMD_STATE_BASE_ADDRESS ||| 14,
      0x00000781,
      0x00000000,
      0x00780000,
      0x00000781,
      0x00000000,
      0x00000781,
      0x00000000,
      0x00000781,
      0x00000000,
      0x00000781,
      0x00000000,
      0xfffff001,
      0xfffff001,
      0xfffff001,
      0xfffff001,

      CMD_MEDIA_STATE_POINTERS ||| (9 - 2),
      0x00000000,
      0x00000000,
      0x014f02c0,
      0x00000000,
      0x00020200,
      0x00000000,
      0x00000000,
      0x00000000,

      CMD_MEDIA_CURBE_LOAD ||| (4 - 2),
      0x00000000,
      0x00004000,
      0x00004400,

      CMD_MEDIA_INTERFACE_DESCRIPTOR_LOAD ||| (4 - 2),
      0x00000000,
      0x00000020,
      0x00008400,

      CMD_GPGPU_WALKER ||| 13,
      0x00000000,
      0x00000000,
      0x00000000,
      0x40000003,
      0x00000000,
      0x00000000,
      0x00000001,
      0x00000000,
      0x00000000,
      0x00000001,
      0x00000000,
      0x00000001,
      0x0000ffff,
      0xffffffff,

      CMD_MEDIA_STATE_FLUSH ||| 0,
      0,

      CMD_PIPE_CONTROL ||| 4,
      0x00000000,
      0x00101420,
      0x00000000,
      0x00000000,
      0x00000000,
      0x00000000,

      CMD_BATCH_BUFFER_END ]

/-- The words emitted by `setup_batch` of `example_hsw.c`, in order. -/
def setup_batch : List Nat :=
  OUT_BATCHES []
    [ CMD_PIPE_CONTROL ||| 3,
      0x00000000,
      0x00100020,
      0x00000000,
      0x00000000,

      CMD_PIPE_CONTROL ||| 3,
      0x00000000,
      0x00101400,
      0x00000000,
      0x00000000,

      CMD_LOAD_REGISTER_IMM ||| 1,
      HSW_SCRATCH1_OFFSET,
      0x00000000,

      CMD_LOAD_REGISTER_IMM ||| 1,
      HSW_ROW_CHICKEN3_HDC_OFFSET,
      (1 <<< 6) <<< 16,

      CMD_LOAD_REGISTER_IMM ||| 1,
      GEN7_L3_SQC_REG1_ADDRESS_OFFSET,
      0x08800000,

      CMD_LOAD_REGISTER_IMM ||| 1,
      GEN7_L3_CNTL_REG2_ADDRESS_OFFSET,
      0x02000030,

      CMD_LOAD_REGISTER_IMM ||| 1,
      GEN7_L3_CNTL_REG3_ADDRESS_OFFSET,
      0x00040410,

      CMD_PIPE_CONTROL ||| 3,
      0x00000000,
      0x00100020,
      0x00000000,
      0x00000000,

      CMD_PIPE_CONTROL ||| 3,
      0x00000000,
      0x00101400,
      0x00000000,
      0x00000000,

      CMD_PIPELINE_SELECT ||| PIPELINE_SELECT_GPGPU,

      CMD_STATE_BASE_ADDRESS ||| 8,
      0x00000551,
      0x00000551,
      0x00000501,
      0x00000501,
      0x00000501,
      0x00000001,
      0xfffff001,
      0x00000001,
      0x00000001,

      CMD_MEDIA_STATE_POINTERS ||| 6,
      0x00000000,
      0x008b00c4,
      0x00000000,
      0x00000200,
      0x00000000,
      0x00000000,
      0x00000000,

      CMD_MEDIA_CURBE_LOAD ||| (4 - 2),
      0x00000000,
      0x00004000,
      0x00004400,

      CMD_MEDIA_INTERFACE_DESCRIPTOR_LOAD ||| (4 - 2),
      0x00000000,
      0x00000020,
      0x00008400,

      CMD_GPGPU_WALKER ||| 9,
      0x00000000,
      0x40000003,
      0x00000000,
      0x00000001,
      0x00000000,
      0x00000001,
      0x00000000,
      0x00000001,
      0x0000ffff,
      0xffffffff,

      CMD_MEDIA_STATE_FLUSH ||| 0,
      0,

      CMD_PIPE_CONTROL ||| 3,
      0x00000000,
      0x00100020,
      0x00000000,
      0x00000000,

      CMD_PIPE_CONTROL ||| 3,
      0x00000000,
      0x00101400,
      0x00000000,
      0x00000000,

      CMD_LOAD_REGISTER_IMM ||| 1,
      HSW_SCRATCH1_OFFSET,
      0x00000000,

      CMD_LOAD_REGISTER_IMM ||| 1,
      HSW_ROW_CHICKEN3_HDC_OFFSET,
      (1 <<< 6) <<< 16,

      CMD_LOAD_REGISTER_IMM ||| 1,
      GEN7_L3_SQC_REG1_ADDRESS_OFFSET,
      0x08800000,

      CMD_LOAD_REGISTER_IMM ||| 1,
      GEN7_L3_CNTL_REG2_ADDRESS_OFFSET,
      0x02000030,

      CMD_LOAD_REGISTER_IMM ||| 1,
      GEN7_L3_CNTL_REG3_ADDRESS_OFFSET,
      0x00040410,

      CMD_PIPE_CONTROL ||| 3,
      0x00000000,
      0x00100020,
      0x00000000,
      0x00000000,

      CMD_PIPE_CONTROL ||| 3,
      0x00000000,
      0x00101400,
      0x00000000,
      0x00000000,
      0x00000000,

      CMD_BATCH_BUFFER_END ]

/-! ## Reading a word stream back as commands -/

/-- The opcode part of a command header: the header without its low 16 bits
(the bits the `CMD` macro and the two `MI` opcodes leave clear). -/
def opcodeOf (h : Nat) : Nat := h / 65536 * 65536

/-- The opcodes defined by the `CMD_*` macros. -/
def definedOpcodes : List Nat :=
  [ CMD_PIPE_CONTROL, CMD_PIPELINE_SELECT, CMD_STATE_BASE_ADDRESS,
    CMD_MEDIA_STATE_POINTERS, CMD_MEDIA_CURBE_LOAD,
    CMD_MEDIA_INTERFACE_DESCRIPTOR_LOAD, CMD_GPGPU_WALKER,
    CMD_MEDIA_STATE_FLUSH, CMD_LOAD_REGISTER_IMM, CMD_BATCH_BUFFER_END ]

/-- A word that may stand at a command boundary: a defined opcode, or zero. -/
def isDefinedHeader (h : Nat) : Bool :=
  h == 0 || definedOpcodes.contains (opcodeOf h)

/-- The length field of a header: its low 8 bits. -/
def lengthField (h : Nat) : Nat := h % 256

/-- Words occupied by the command whose header is `h`: one for
`PIPELINE_SELECT`, `BATCH_BUFFER_END` and an all-zero word, otherwise the
length field plus the bias 2. -/
def commandWords (h : Nat) : Nat :=
  if h = 0 ∨ opcodeOf h = CMD_PIPELINE_SELECT ∨ opcodeOf h = CMD_BATCH_BUFFER_END then 1
  else lengthField h + 2

/-- Walk a word stream from position `p`: the positions reached as headers,
and the position at which the walk stops (the first position past the end of
the stream, or the position reached when the fuel is spent). -/
def walk : Nat → List Nat → Nat → List Nat × Nat
  | 0, _, p => ([], p)
  | fuel + 1, s, p =>
    match s[p]? with
    | none => ([], p)
    | some h =>
      let r := walk fuel s (p + commandWords h)
      (p :: r.1, r.2)

/-- The header positions of a stream, walking from word 0. -/
def headerPositions (s : List Nat) : List Nat := (walk s.length s 0).1

/-- The header positions whose opcode is `op`. -/
def positionsOf (s : List Nat) (op : Nat) : List Nat :=
  (headerPositions s).filter (fun p => opcodeOf (s.getD p 0) == op)

/-! ## Bit-fields -/

/-- Bit offset of the field number `i` of a 32-bit unit whose fields have
the widths `ws`, in declaration order, allocated from bit 0 upwards. -/
def fieldShift (ws : List Nat) (i : Nat) : Nat := (ws.take i).sum

/-- Width of the field number `i`. -/
def fieldWidth (ws : List Nat) (i : Nat) : Nat := ws.getD i 0

/-- Read a bit-field by shift and mask. -/
def getBits (x shift width : Nat) : Nat := (x >>> shift) &&& (2 ^ width - 1)

/-- Assign `v` to a bit-field of the 32-bit unit `x`: the value is truncated
to the width of the field and the other bits of the unit are kept. -/
def setBits (x shift width v : Nat) : Nat :=
  (x &&& ((2 ^ 32 - 1) ^^^ ((2 ^ width - 1) <<< shift))) ||| ((v &&& (2 ^ width - 1)) <<< shift)

/-- The assignment `p->word.field = v` for the unit at byte address `a`. -/
def storeField (m : Mem) (a : Nat) (ws : List Nat) (i v : Nat) : Mem :=
  store32 m a (setBits (load32 m a) (fieldShift ws i) (fieldWidth ws i) v)

/-- The read `p->word.field` for the unit at byte address `a`. -/
def loadField (m : Mem) (a : Nat) (ws : List Nat) (i : Nat) : Nat :=
  getBits (load32 m a) (fieldShift ws i) (fieldWidth ws i)

/-- Size in bytes of a struct made of 32-bit units. -/
def sizeofWords (layout : List (List Nat)) : Nat := 4 * layout.length

/-- Byte address of unit number `word` of element `k` of an array of structs
of `size` bytes starting at `base`. -/
def unitAddr (base size k word : Nat) : Nat := base + size * k + 4 * word

/-! ### `gen8_interface_descriptor_t` (example_bdw.c) -/

def gen8_desc0 : List Nat :=
  [ 6,    -- pad6
    26 ]  -- kernel_start_pointer
def gen8_desc1 : List Nat :=
  [ 16,   -- kernel_start_pointer_high
    16 ]  -- pad6
def gen8_desc2 : List Nat :=
  [ 7,    -- pad
    1,    -- software_exception
    3,    -- pad2
    1,    -- maskstack_exception
    1,    -- pad3
    1,    -- illegal_opcode_exception
    2,    -- pad4
    1,    -- floating_point_mode
    1,    -- thread_priority
    1,    -- single_program_flow
    1,    -- denorm_mode
    1,    -- thread_preemption_disable
    11 ]  -- pad5
def gen8_desc3 : List Nat :=
  [ 2,    -- pad
    3,    -- sampler_count
    27 ]  -- sampler_state_pointer
def gen8_desc4 : List Nat :=
  [ 5,    -- binding_table_entry_count
    27 ]  -- binding_table_pointer
def gen8_desc5 : List Nat :=
  [ 16,   -- curbe_read_offset
    16 ]  -- curbe_read_len
def gen8_desc6 : List Nat :=
  [ 10,   -- group_threads_num
    5,    -- pad
    1,    -- global_barrier_enable
    5,    -- slm_sz
    1,    -- barrier_enable
    2,    -- rounding_mode
    8 ]   -- barrier_return_grf_offset
def gen8_desc7 : List Nat := [32]

def gen8_interface_descriptor_t : List (List Nat) :=
  [gen8_desc0, gen8_desc1, gen8_desc2, gen8_desc3, gen8_desc4, gen8_desc5, gen8_desc6,
   gen8_desc7]

/-! ### `gen6_interface_descriptor_t` (example_hsw.c) -/

def gen6_desc0 : List Nat :=
  [ 6,    -- pad6
    26 ]  -- kernel_start_pointer
def gen6_desc1 : List Nat :=
  [ 7,    -- pad
    1,    -- software_exception
    3,    -- pad2
    1,    -- maskstack_exception
    1,    -- pad3
    1,    -- illegal_opcode_exception
    2,    -- pad4
    1,    -- floating_point_mode
    1,    -- thread_priority
    1,    -- single_program_flow
    1,    -- pad5
    6,    -- pad6
    6 ]   -- pad7
def gen6_desc2 : List Nat :=
  [ 2,    -- pad
    3,    -- sampler_count
    27 ]  -- sampler_state_pointer
def gen6_desc3 : List Nat :=
  [ 5,    -- binding_table_entry_count
    27 ]  -- binding_table_pointer
def gen6_desc4 : List Nat :=
  [ 16,   -- curbe_read_offset
    16 ]  -- curbe_read_len
def gen6_desc5 : List Nat :=
  [ 8,    -- group_threads_num
    8,    -- barrier_return_byte
    5,    -- slm_sz
    1,    -- barrier_enable
    2,    -- rounding_mode
    8 ]   -- barrier_return_grf_offset
def gen6_desc6 : List Nat := [32]
def gen6_desc7 : List Nat := [32]

def gen6_interface_descriptor_t : List (List Nat) :=
  [gen6_desc0, gen6_desc1, gen6_desc2, gen6_desc3, gen6_desc4, gen6_desc5, gen6_desc6,
   gen6_desc7]

/-! ### `gen8_surface_state_t` (example_bdw.c) -/

def gen8_ss0 : List Nat :=
  [ 1,    --  0 cube_pos_z
    1,    --  1 cube_neg_z
    1,    --  2 cube_pos_y
    1,    --  3 cube_neg_y
    1,    --  4 cube_pos_x
    1,    --  5 cube_neg_x
    2,    --  6 media_boundary_pixel_mode
    1,    --  7 render_cache_rw_mode
    1,    --  8 sampler_L2_bypass_mode
    1,    --  9 vertical_line_stride_offset
    1,    -- 10 vertical_line_stride
    2,    -- 11 tile_mode
    2,    -- 12 horizontal_alignment
    2,    -- 13 vertical_alignment
    9,    -- 14 surface_format
    1,    -- 15 pad0
    1,    -- 16 surface_array
    3 ]   -- 17 surface_type
def gen8_ss1 : List Nat :=
  [ 15,   -- 0 surface_qpitch
    3,    -- 1 pad0
    1,    -- 2 pad1
    5,    -- 3 base_mip_level
    7,    -- 4 mem_obj_ctrl_state
    1 ]   -- 5 pad2
def gen8_ss2 : List Nat :=
  [ 14,   -- 0 width
    2,    -- 1 pad1
    14,   -- 2 height
    2 ]   -- 3 pad0
def gen8_ss3 : List Nat :=
  [ 18,   -- 0 surface_pitch
    2,    -- 1 pad1
    1,    -- 2 pad0
    11 ]  -- 3 depth
def gen8_ss4 : List Nat :=
  [ 3,    -- multisample_pos_palette_idx
    3,    -- multisample_num
    1,    -- multisample_format
    11,   -- render_target_view_ext
    11,   -- min_array_elt
    2,    -- render_target_and_sample_rotation
    1 ]   -- pad1
def gen8_ss5 : List Nat :=
  [ 4,    -- mip_count
    4,    -- surface_min_lod
    4,    -- pad5
    2,    -- pad4
    1,    -- conherency_type
    3,    -- pad3
    2,    -- pad2
    1,    -- cube_ewa
    3,    -- y_offset
    1,    -- pad0
    7 ]   -- x_offset
def gen8_ss6 : List Nat :=
  [ 3,    -- aux_surface_mode       (first member of the union)
    9,    -- aux_surface_pitch
    4,    -- pad3
    16 ]  -- rest of the 32-bit unit, unnamed
def gen8_ss7 : List Nat :=
  [ 12,   -- resource_min_lod
    4,    -- pad0
    3,    -- shader_channel_select_alpha
    3,    -- shader_channel_select_blue
    3,    -- shader_channel_select_green
    3,    -- shader_channel_select_red
    1,    -- alpha_clear_color
    1,    -- blue_clear_color
    1,    -- green_clear_color
    1 ]   -- red_clear_color
def gen8_ss8 : List Nat := [32]   -- surface_base_addr_lo
def gen8_ss9 : List Nat := [32]   -- surface_base_addr_hi
def gen8_ss10 : List Nat :=
  [ 12,   -- pad0
    20 ]  -- aux_base_addr_lo
def gen8_ss11 : List Nat := [32]  -- aux_base_addr_hi
def gen8_ss12 : List Nat := [32]  -- pad0
def gen8_ss13 : List Nat := [32]  -- pad0
def gen8_ss14 : List Nat := [32]  -- pad0
def gen8_ss15 : List Nat := [32]  -- pad0

def gen8_surface_state_t : List (List Nat) :=
  [gen8_ss0, gen8_ss1, gen8_ss2, gen8_ss3, gen8_ss4, gen8_ss5, gen8_ss6, gen8_ss7,
   gen8_ss8, gen8_ss9, gen8_ss10, gen8_ss11, gen8_ss12, gen8_ss13, gen8_ss14, gen8_ss15]

/-! ### `gen7_surface_state_t` (example_hsw.c) -/

def gen7_ss0 : List Nat :=
  [ 1,    --  0 cube_pos_z
    1,    --  1 cube_neg_z
    1,    --  2 cube_pos_y
    1,    --  3 cube_neg_y
    1,    --  4 cube_pos_x
    1,    --  5 cube_neg_x
    2,    --  6 media_boundary_pixel_mode
    1,    --  7 render_cache_rw_mode
    1,    --  8 pad1
    1,    --  9 surface_array_spacing
    1,    -- 10 vertical_line_stride_offset
    1,    -- 11 vertical_line_stride
    1,    -- 12 tile_walk
    1,    -- 13 tiled_surface
    1,    -- 14 horizontal_alignment
    2,    -- 15 vertical_alignment
    9,    -- 16 surface_format
    1,    -- 17 pad0
    1,    -- 18 surface_array
    3 ]   -- 19 surface_type
def gen7_ss1 : List Nat := [32]   -- base_addr
def gen7_ss2 : List Nat :=
  [ 14,   -- 0 width
    2,    -- 1 pad1
    14,   -- 2 height
    2 ]   -- 3 pad0
def gen7_ss3 : List Nat :=
  [ 18,   -- 0 pitch
    3,    -- 1 pad0
    11 ]  -- 2 depth
def gen7_ss4 : List Nat :=
  [ 3,    -- mulsample_pal_idx
    3,    -- numer_mulsample
    1,    -- mss_fmt
    11,   -- rt_view_extent
    11,   -- min_array_element
    2,    -- rt_rotate
    1 ]   -- pad0
def gen7_ss5 : List Nat :=
  [ 4,    -- 0 mip_count
    4,    -- 1 surface_min_load
    6,    -- 2 pad2
    1,    -- 3 coherence_type
    1,    -- 4 stateless_force_write_thru
    4,    -- 5 cache_control
    4,    -- 6 y_offset
    1,    -- 7 pad0
    7 ]   -- 8 x_offset
def gen7_ss6 : List Nat := [32]   -- unused
def gen7_ss7 : List Nat :=
  [ 12,   -- min_lod
    4,    -- pad0
    3,    -- shader_a
    3,    -- shader_b
    3,    -- shader_g
    3,    -- shader_r
    4 ]   -- pad1

def gen7_surface_state_t : List (List Nat) :=
  [gen7_ss0, gen7_ss1, gen7_ss2, gen7_ss3, gen7_ss4, gen7_ss5, gen7_ss6, gen7_ss7]

/-! ## State-buffer builders -/

/-- The function `setup_input` (both files): `input[i] = i` for `i < 64`. -/
def setup_input (data : Nat) (m : Mem) : Mem :=
  let input := data
  (List.range 64).foldl (fun m i => store32 m (input + 4 * i) i) m

/-- The function `setup_curb0` of example_bdw.c (the store of the thread
count is commented out there). -/
def setup_curb0 (data : Nat) (m : Mem) : Mem :=
  let curb := data
  let id_offset := 8
  (List.range 4).foldl (fun m i =>
    let slice := i * 64
    (List.range 16).foldl (fun m j =>
      store32 m (curb + 4 * (slice + id_offset + j)) (j + (i * 16))) m) m

/-- The function `setup_curb` of example_hsw.c. -/
def setup_curb (data : Nat) (m : Mem) : Mem :=
  let curb := data
  let id_offset := 8
  let count_offset := 60
  (List.range 4).foldl (fun m i =>
    let slice := i * 64
    let m := (List.range 16).foldl (fun m j =>
      store32 m (curb + 4 * (slice + id_offset + j)) (j + (i * 16))) m
    store32 m (curb + 4 * (slice + count_offset)) 64) m

/-- The function `setup_idrt0` of example_bdw.c. -/
def setup_idrt0 (data : Nat) (m : Mem) : Mem :=
  let idrt := data
  let sz := sizeofWords gen8_interface_descriptor_t
  -- idrt[0].desc5.curbe_read_len = 8;
  let m := storeField m (unitAddr idrt sz 0 5) gen8_desc5 1 8
  -- idrt[0].desc6.group_threads_num = 4;
  storeField m (unitAddr idrt sz 0 6) gen8_desc6 0 4

/-- The function `setup_idrt` of example_hsw.c. -/
def setup_idrt (data : Nat) (m : Mem) : Mem :=
  let idrt := data
  let sz := sizeofWords gen6_interface_descriptor_t
  -- idrt[0].desc4.curbe_read_len = 8;
  let m := storeField m (unitAddr idrt sz 0 4) gen6_desc4 1 8
  -- idrt[0].desc5.slm_sz = 1;
  storeField m (unitAddr idrt sz 0 5) gen6_desc5 2 1

/-- The function `setup_heap0` of example_bdw.c. -/
def setup_heap0 (data : Nat) (m : Mem) : Mem :=
  let bind := data
  let srfc := data + 1024
  let sz := sizeofWords gen8_surface_state_t
  let m := store32 m (bind + 4 * 2) 1152
  let m := store32 m (bind + 4 * 3) 1216
  -- srfc[2].ss0.surface_format = 511;
  let m := storeField m (unitAddr srfc sz 2 0) gen8_ss0 14 511
  -- srfc[2].ss0.surface_type = 4;
  let m := storeField m (unitAddr srfc sz 2 0) gen8_ss0 17 4
  -- srfc[2].ss1.mem_obj_ctrl_state = 120;
  let m := storeField m (unitAddr srfc sz 2 1) gen8_ss1 4 120
  -- srfc[2].ss2.width = 127;
  let m := storeField m (unitAddr srfc sz 2 2) gen8_ss2 0 127
  -- srfc[2].ss2.height = 1;
  let m := storeField m (unitAddr srfc sz 2 2) gen8_ss2 2 1
  -- srfc[3].ss0.surface_format = 511;
  let m := storeField m (unitAddr srfc sz 3 0) gen8_ss0 14 511
  -- srfc[3].ss0.surface_type = 4;
  let m := storeField m (unitAddr srfc sz 3 0) gen8_ss0 17 4
  -- srfc[3].ss1.mem_obj_ctrl_state = 120;
  let m := storeField m (unitAddr srfc sz 3 1) gen8_ss1 4 120
  -- srfc[3].ss2.width = 127;
  let m := storeField m (unitAddr srfc sz 3 2) gen8_ss2 0 127
  -- srfc[3].ss2.height = 1;
  storeField m (unitAddr srfc sz 3 2) gen8_ss2 2 1

/-- The function `setup_heap` of example_hsw.c. -/
def setup_heap (data : Nat) (m : Mem) : Mem :=
  let bind := data
  let srfc := data + 1024
  let sz := sizeofWords gen7_surface_state_t
  let m := store32 m (bind + 4 * 2) 1088
  let m := store32 m (bind + 4 * 3) 1120
  -- srfc[2].ss0.surface_format = 511;
  let m := storeField m (unitAddr srfc sz 2 0) gen7_ss0 16 511
  -- srfc[2].ss0.surface_type = 4;
  let m := storeField m (unitAddr srfc sz 2 0) gen7_ss0 19 4
  -- srfc[2].ss2.width = 127;
  let m := storeField m (unitAddr srfc sz 2 2) gen7_ss2 0 127
  -- srfc[2].ss2.height = 1;
  let m := storeField m (unitAddr srfc sz 2 2) gen7_ss2 2 1
  -- srfc[2].ss5.cache_control = 5;
  let m := storeField m (unitAddr srfc sz 2 5) gen7_ss5 5 5
  -- srfc[3].ss0.surface_format = 511;
  let m := storeField m (unitAddr srfc sz 3 0) gen7_ss0 16 511
  -- srfc[3].ss0.surface_type = 4;
  let m := storeField m (unitAddr srfc sz 3 0) gen7_ss0 19 4
  -- srfc[3].ss2.width = 127;
  let m := storeField m (unitAddr srfc sz 3 2) gen7_ss2 0 127
  -- srfc[3].ss2.height = 1;
  let m := storeField m (unitAddr srfc sz 3 2) gen7_ss2 2 1
  -- srfc[3].ss5.cache_control = 5;
  storeField m (unitAddr srfc sz 3 5) gen7_ss5 5 5

/-! ## The calls issued by `main` -/

/-- The buffer objects allocated by `main`. -/
inductive Bo where
  | kernel_buffer
  | input_buffer
  | output_buffer
  | state_buffer
  | batch_buffer
  deriving DecidableEq, Repr

/-- The staging arrays of `main`. -/
inductive Staging where
  | kernel_data
  | state_data
  | batch_data
  | input_data
  deriving DecidableEq, Repr

/-- Declared size of each staging array (the same in both files). -/
def Staging.size : Staging → Nat
  | .kernel_data => 4096
  | .state_data => 40960
  | .batch_data => 4096
  | .input_data => 256

/-- A call of the buffer manager, with its literal arguments (the debug name
of `drm_intel_bo_alloc` is left out). -/
inductive Call where
  | bufmgr_gem_init (batch_size : Nat)
  | gem_context_create
  | bo_alloc (bo : Bo) (size alignment : Nat)
  | bo_subdata (bo : Bo) (offset size : Nat) (data : Staging)
  | bo_emit_reloc (bo : Bo) (offset : Nat) (target_bo : Bo) (target_offset : Nat)
      (read_domains write_domain : Nat)
  | gem_bo_context_exec (bo : Bo) (used flags : Nat)
  | bo_busy (bo : Bo)
  | bo_wait_rendering (bo : Bo)
  | gem_bo_start_gtt_access (bo : Bo) (write_enable : Nat)
  | bo_get_subdata (bo : Bo) (offset size : Nat)
  | bo_unreference (bo : Bo)
  | gem_context_destroy
  | bufmgr_destroy
  deriving DecidableEq, Repr

/-- The value of `sizeof(uint32_t)`. -/
def sizeof_uint32_t : Nat := 4

/-- The value of `sizeof(int)`. -/
def sizeof_int : Nat := 4

/-- The calls of `main` in example_bdw.c, in program order. -/
def main_bdw : List Call :=
  [ .bufmgr_gem_init 16384,
    .gem_context_create,
    .bo_alloc .kernel_buffer 464 64,
    .bo_subdata .kernel_buffer 0 464 .kernel_data,
    .bo_alloc .input_buffer 256 64,
    .bo_subdata .input_buffer 0 256 .input_data,
    .bo_alloc .output_buffer 256 64,
    .bo_alloc .state_buffer 36864 4096,
    .bo_subdata .state_buffer 0 36864 .state_data,
    -- surface relocations
    .bo_emit_reloc .state_buffer (SRFC_OFFSET + 160) .input_buffer 0 2 2,
    .bo_emit_reloc .state_buffer (SRFC_OFFSET + 160 + 64) .output_buffer 0 2 2 ]
  -- curb relocations
  ++ (List.range 4).flatMap (fun i =>
    let input_offset := CURB_OFFSET + i * 256 + sizeof_uint32_t * 58
    let output_offset := CURB_OFFSET + i * 256 + sizeof_uint32_t * 58 + 8
    [ .bo_emit_reloc .state_buffer input_offset .input_buffer 0 2 2,
      .bo_emit_reloc .state_buffer output_offset .output_buffer 0 2 2 ])
  ++
  [ .bo_alloc .batch_buffer 512 64,
    .bo_subdata .batch_buffer 0 512 .batch_data,
    -- batch buffer relocations
    .bo_emit_reloc .batch_buffer (20 * sizeof_uint32_t) .state_buffer 1921 4 4,
    .bo_emit_reloc .batch_buffer (22 * sizeof_uint32_t) .state_buffer 1921 2 2,
    .bo_emit_reloc .batch_buffer (26 * sizeof_uint32_t) .kernel_buffer 1921 16 16,
    .gem_bo_context_exec .batch_buffer 296 1,
    .bo_busy .batch_buffer,
    .bo_wait_rendering .batch_buffer,
    .gem_bo_start_gtt_access .batch_buffer 1,
    .bo_get_subdata .output_buffer 0 256,
    .bo_unreference .kernel_buffer,
    .bo_unreference .input_buffer,
    .bo_unreference .output_buffer,
    .bo_unreference .state_buffer,
    .bo_unreference .batch_buffer,
    .gem_context_destroy,
    .bufmgr_destroy ]

/-- The calls of `main` in example_hsw.c, in program order. -/
def main_hsw : List Call :=
  [ .bufmgr_gem_init 16384,
    .gem_context_create,
    .bo_alloc .kernel_buffer 416 64,
    .bo_subdata .kernel_buffer 0 416 .kernel_data,
    .bo_alloc .input_buffer 256 64,
    .bo_subdata .input_buffer 0 256 .input_data,
    .bo_alloc .output_buffer 256 64,
    .bo_alloc .state_buffer 36864 4096,
    .bo_subdata .state_buffer 0 36864 .state_data,
    -- surface relocations
    .bo_emit_reloc .state_buffer (SRFC_OFFSET + 68) .input_buffer 0 2 2,
    .bo_emit_reloc .state_buffer (SRFC_OFFSET + 68 + 32) .output_buffer 0 2 2,
    -- idrt relocations
    .bo_emit_reloc .state_buffer IDRT_OFFSET .kernel_buffer 0 16 0 ]
  -- curb relocations
  ++ (List.range 4).flatMap (fun i =>
    let input_offset := CURB_OFFSET + i * 256 + sizeof_uint32_t * 58
    let output_offset := CURB_OFFSET + i * 256 + sizeof_uint32_t * 58 + 8
    [ .bo_emit_reloc .state_buffer input_offset .input_buffer 0 2 2,
      .bo_emit_reloc .state_buffer output_offset .output_buffer 0 2 2 ])
  ++
  [ .bo_alloc .batch_buffer 512 64,
    .bo_subdata .batch_buffer 0 512 .batch_data,
    -- batch relocations
    .bo_emit_reloc .batch_buffer (38 * sizeof_uint32_t) .state_buffer 1361 16 16,
    .bo_emit_reloc .batch_buffer (57 * sizeof_uint32_t) .state_buffer CURB_OFFSET 16 0,
    .bo_emit_reloc .batch_buffer (61 * sizeof_uint32_t) .state_buffer IDRT_OFFSET 16 0,
    .gem_bo_context_exec .batch_buffer 448 1,
    .bo_busy .batch_buffer,
    .bo_wait_rendering .batch_buffer,
    .gem_bo_start_gtt_access .batch_buffer 1,
    .bo_get_subdata .output_buffer 0 256,
    .bo_unreference .kernel_buffer,
    .bo_unreference .input_buffer,
    .bo_unreference .output_buffer,
    .bo_unreference .state_buffer,
    .bo_unreference .batch_buffer,
    .gem_context_destroy,
    .bufmgr_destroy ]

/-- The array `state_data` of example_bdw.c when it is uploaded: zeroed, then
`setup_heap0(state_data)`, `setup_curb0(state_data + CURB_OFFSET)` and
`setup_idrt0(state_data + IDRT_OFFSET)`. -/
def state_data_bdw : Mem :=
  setup_idrt0 IDRT_OFFSET (setup_curb0 CURB_OFFSET (setup_heap0 0 zeroMem))

/-- The array `state_data` of example_hsw.c when it is uploaded. -/
def state_data_hsw : Mem :=
  setup_idrt IDRT_OFFSET (setup_curb CURB_OFFSET (setup_heap 0 zeroMem))

/-- The array `input_data` when it is uploaded (both files). -/
def input_data : Mem := setup_input 0 zeroMem

/-- A relocation entry: the arguments of one `drm_intel_bo_emit_reloc`. -/
structure Reloc where
  bo : Bo
  offset : Nat
  target_bo : Bo
  target_offset : Nat
  read_domains : Nat
  write_domain : Nat
  deriving DecidableEq, Repr

/-- The relocation entries registered by a run, in order. -/
def relocsOf : List Call → List Reloc
  | [] => []
  | .bo_emit_reloc b o t d r w :: cs => ⟨b, o, t, d, r, w⟩ :: relocsOf cs
  | _ :: cs => relocsOf cs

/-- The sizes given to `drm_intel_bo_alloc` for a buffer object. -/
def allocSizes (cs : List Call) (b : Bo) : List Nat :=
  cs.filterMap (fun c => match c with
    | .bo_alloc b1 size _ => if b1 = b then some size else none
    | _ => none)

/-- The (offset, size) ranges uploaded into a buffer object. -/
def uploads (cs : List Call) (b : Bo) : List (Nat × Nat) :=
  cs.filterMap (fun c => match c with
    | .bo_subdata b1 offset size _ => if b1 = b then some (offset, size) else none
    | _ => none)

/-- The (offset, size) ranges read back from a buffer object. -/
def readbacks (cs : List Call) (b : Bo) : List (Nat × Nat) :=
  cs.filterMap (fun c => match c with
    | .bo_get_subdata b1 offset size => if b1 = b then some (offset, size) else none
    | _ => none)

/-- The byte lengths handed to `drm_intel_gem_bo_context_exec` for a buffer. -/
def execLengths (cs : List Call) (b : Bo) : List Nat :=
  cs.filterMap (fun c => match c with
    | .gem_bo_context_exec b1 used _ => if b1 = b then some used else none
    | _ => none)

/-- Adjacent pairs of a list. -/
def adjacentPairs (xs : List Nat) : List (Nat × Nat) := xs.zip xs.tail

/-- The walk of a stream is consistent: it stops exactly at the end of the
stream, its last header is the last word, every header is a defined opcode
or zero, and a header followed by operands (the next header is at least two
words further) has a length field equal to the words up to the next header
minus the bias 2. -/
def walkConsistent (s : List Nat) : Prop :=
  (walk s.length s 0).2 = s.length ∧
  (headerPositions s).getLast? = some (s.length - 1) ∧
  (∀ p ∈ headerPositions s, isDefinedHeader (s.getD p 0) = true) ∧
  (∀ pq ∈ adjacentPairs (headerPositions s),
    pq.1 + 2 ≤ pq.2 → lengthField (s.getD pq.1 0) = (pq.2 - pq.1) - 2)

instance (s : List Nat) : Decidable (walkConsistent s) := by
  unfold walkConsistent
  exact inferInstance

/-- Every position of the first list is below every position of the second. -/
def allBefore (xs ys : List Nat) : Prop := ∀ x ∈ xs, ∀ y ∈ ys, x < y

instance (xs ys : List Nat) : Decidable (allBefore xs ys) := by
  unfold allBefore
  exact inferInstance

/-- Number of words of a stream, operands included, whose opcode part is `op`. -/
def rawCount (s : List Nat) (op : Nat) : Nat := (s.filter (fun w => opcodeOf w == op)).length

/-- A relocation patches a 32-bit word lying inside its source buffer as
allocated: `offset + 4` is at most every size given to the allocation of the
source buffer, and the buffer is allocated. -/
def relocInside (cs : List Call) (r : Reloc) : Prop :=
  allocSizes cs r.bo ≠ [] ∧ ∀ n ∈ allocSizes cs r.bo, r.offset + 4 ≤ n

instance (cs : List Call) (r : Reloc) : Decidable (relocInside cs r) := by
  unfold relocInside
  exact inferInstance

/-- The heap image built by `setup_heap0` from a zeroed buffer. -/
def heap_bdw : Mem := setup_heap0 0 zeroMem

/-- The heap image built by `setup_heap` from a zeroed buffer. -/
def heap_hsw : Mem := setup_heap 0 zeroMem

/-- Unit of `gen8_surface_state_t` holding the base address: `ss8`
(`surface_base_addr_lo`). -/
def gen8_base_addr_unit : Nat := 8

/-- Unit of `gen7_surface_state_t` holding the base address: `ss1`
(`base_addr`). -/
def gen7_base_addr_unit : Nat := 1

/-- Byte offset, from the start of the heap, of `surface[k]` in
`surface_heap_t`: the member follows `binding_table[256]`. -/
def surfaceOffset (layout : List (List Nat)) (k : Nat) : Nat :=
  unitAddr (4 * 256) (sizeofWords layout) k 0

/-! ## Surface-state encoding with arbitrary field values -/

/-- The five field assignments that `setup_heap0` applies to `srfc[k]`, with
the assigned values as parameters. -/
def encode_gen8 (srfc k f t c w h : Nat) (m : Mem) : Mem :=
  let sz := sizeofWords gen8_surface_state_t
  let m := storeField m (unitAddr srfc sz k 0) gen8_ss0 14 f
  let m := storeField m (unitAddr srfc sz k 0) gen8_ss0 17 t
  let m := storeField m (unitAddr srfc sz k 1) gen8_ss1 4 c
  let m := storeField m (unitAddr srfc sz k 2) gen8_ss2 0 w
  storeField m (unitAddr srfc sz k 2) gen8_ss2 2 h

/-- Reading `surface_format`, `surface_type`, `mem_obj_ctrl_state`, `width`
and `height` of `srfc[k]` (gen8) by shift and mask. -/
def decode_gen8 (srfc k : Nat) (m : Mem) : Nat × Nat × Nat × Nat × Nat :=
  let sz := sizeofWords gen8_surface_state_t
  (loadField m (unitAddr srfc sz k 0) gen8_ss0 14,
   loadField m (unitAddr srfc sz k 0) gen8_ss0 17,
   loadField m (unitAddr srfc sz k 1) gen8_ss1 4,
   loadField m (unitAddr srfc sz k 2) gen8_ss2 0,
   loadField m (unitAddr srfc sz k 2) gen8_ss2 2)

/-- The five field assignments that `setup_heap` applies to `srfc[k]`, with
the assigned values as parameters. -/
def encode_gen7 (srfc k f t w h c : Nat) (m : Mem) : Mem :=
  let sz := sizeofWords gen7_surface_state_t
  let m := storeField m (unitAddr srfc sz k 0) gen7_ss0 16 f
  let m := storeField m (unitAddr srfc sz k 0) gen7_ss0 19 t
  let m := storeField m (unitAddr srfc sz k 2) gen7_ss2 0 w
  let m := storeField m (unitAddr srfc sz k 2) gen7_ss2 2 h
  storeField m (unitAddr srfc sz k 5) gen7_ss5 5 c

/-- Reading `surface_format`, `surface_type`, `width`, `height` and
`cache_control` of `srfc[k]` (gen7) by shift and mask. -/
def decode_gen7 (srfc k : Nat) (m : Mem) : Nat × Nat × Nat × Nat × Nat :=
  let sz := sizeofWords gen7_surface_state_t
  (loadField m (unitAddr srfc sz k 0) gen7_ss0 16,
   loadField m (unitAddr srfc sz k 0) gen7_ss0 19,
   loadField m (unitAddr srfc sz k 2) gen7_ss2 0,
   loadField m (unitAddr srfc sz k 2) gen7_ss2 2,
   loadField m (unitAddr srfc sz k 5) gen7_ss5 5)

/-- Every field of every unit of a struct lies inside its 32-bit unit and
two different fields of one unit occupy disjoint bit ranges. -/
def layoutDisjoint (layout : List (List Nat)) : Prop :=
  ∀ ws ∈ layout, ∀ i, i < ws.length → ∀ j, j < ws.length →
    fieldShift ws i + fieldWidth ws i ≤ 32 ∧
    (i ≠ j → fieldShift ws i + fieldWidth ws i ≤ fieldShift ws j ∨
      fieldShift ws j + fieldWidth ws j ≤ fieldShift ws i)

instance (layout : List (List Nat)) : Decidable (layoutDisjoint layout) := by
  unfold layoutDisjoint
  exact inferInstance

/-- Writing any field of a struct element leaves every other field of that
element as it was: `(u, i)` is field `i` of unit `u`. -/
def fieldsIndependent (layout : List (List Nat)) : Prop :=
  ∀ (m : Mem) (base k v u i u1 j : Nat),
    u < layout.length → i < (layout.getD u []).length →
    u1 < layout.length → j < (layout.getD u1 []).length →
    (u, i) ≠ (u1, j) →
    loadField
        (storeField m (unitAddr base (sizeofWords layout) k u) (layout.getD u []) i v)
        (unitAddr base (sizeofWords layout) k u1) (layout.getD u1 []) j =
      loadField m (unitAddr base (sizeofWords layout) k u1) (layout.getD u1 []) j

/-- The byte size described by a buffer surface whose size minus one is
split over the fields: width holds bits 6:0, height bits 20:7 and depth bits
31:21 (the buffer-surface size convention, as claim C8 words it). -/
def bufferSurfaceSize (width height depth : Nat) : Nat :=
  (depth * 2 ^ 21 + height * 2 ^ 7 + width) + 1

/-- Word `k` of a CURBE segment is a local-ID word: `k = 64 * i + 8 + j` for
a group `i < 4` and a lane `j < 16`. -/
def isLocalIdWord (k : Nat) : Prop := ∃ i j, i < 4 ∧ j < 16 ∧ k = 64 * i + 8 + j

/-- Word `k` of a CURBE segment is a thread-count word: `k = 64 * i + 60` for
a group `i < 4`. -/
def isCountWord (k : Nat) : Prop := ∃ i, i < 4 ∧ k = 64 * i + 60


/-! ## Operands of a command in a stream -/

/-- Operand number `n` (1-based) of the command whose header is at word `p`. -/
def operand (s : List Nat) (p n : Nat) : Nat := s.getD (p + n) 0

/-- The three operands of every command of a stream whose opcode is `op`. -/
def operands3 (s : List Nat) (op : Nat) : List (Nat × Nat × Nat) :=
  (positionsOf s op).map (fun p => (operand s p 1, operand s p 2, operand s p 3))

/-- The (byte address, value) pairs of the stores of local IDs made by the
two nested loops of `setup_curb0` and `setup_curb`, in program order. -/
def local_id_stores (data : Nat) : List (Nat × Nat) :=
  (List.range 4).flatMap (fun i =>
    (List.range 16).map (fun j => (data + 4 * (i * 64 + 8 + j), j + (i * 16))))

/-- The (byte address, value) pairs of all stores of `setup_curb`, in program
order: for each group its local IDs, then its thread count. -/
def curb_stores_hsw (data : Nat) : List (Nat × Nat) :=
  (List.range 4).flatMap (fun i =>
    (List.range 16).map (fun j => (data + 4 * (i * 64 + 8 + j), j + (i * 16)))
      ++ [(data + 4 * (i * 64 + 60), 64)])

/-- Apply a list of 32-bit stores in order. -/
def applyStores (stores : List (Nat × Nat)) (m : Mem) : Mem :=
  stores.foldl (fun m av => store32 m av.1 av.2) m

/-- Several operands of every command of a stream whose opcode is `op`. -/
def operandsAt (s : List Nat) (op : Nat) (ns : List Nat) : List (List Nat) :=
  (positionsOf s op).map (fun p => ns.map (fun n => operand s p n))

/-- The input array of `main` seen through `int *input`: element `i`. -/
def input_word (i : Nat) : Nat := load32 input_data (sizeof_int * i)

/-! ## Relocation sources -/

/-- Some relocation has the state buffer at `IDRT_OFFSET` (unit `desc0` of
descriptor 0, which holds `kernel_start_pointer`) as its source and the
kernel buffer as its target. -/
def bindsKernelStart (cs : List Call) : Prop :=
  ∃ r ∈ relocsOf cs, r.bo = .state_buffer ∧ r.offset = IDRT_OFFSET ∧ r.target_bo = .kernel_buffer

instance (cs : List Call) : Decidable (bindsKernelStart cs) := by
  unfold bindsKernelStart
  exact inferInstance

/-- The relocations of a run whose target is the buffer `b`. -/
def relocsTo (cs : List Call) (b : Bo) : List Reloc :=
  (relocsOf cs).filter (fun r => r.target_bo = b)

/-- The operand numbers `n` of the STATE_BASE_ADDRESS command of the stream
`s` whose word is the source of a relocation with target `b`. -/
def sbaOperandsBoundTo (cs : List Call) (s : List Nat) (b : Bo) : List Nat :=
  (positionsOf s CMD_STATE_BASE_ADDRESS).flatMap (fun p =>
    (List.range (commandWords (s.getD p 0))).filter (fun n =>
      1 ≤ n ∧ ∃ r ∈ relocsOf cs, r.bo = .batch_buffer ∧ r.offset = 4 * (p + n) ∧ r.target_bo = b))

/-- The byte offset `off` of the batch is an operand word of the
STATE_BASE_ADDRESS command of the stream `s`. -/
def isSbaOperand (s : List Nat) (off : Nat) : Prop :=
  ∃ p ∈ positionsOf s CMD_STATE_BASE_ADDRESS,
    ∃ n ∈ List.range (commandWords (s.getD p 0)), 1 ≤ n ∧ off = 4 * (p + n)

instance (s : List Nat) (off : Nat) : Decidable (isSbaOperand s off) := by
  unfold isSbaOperand
  exact inferInstance

/-- The byte offset `off` of the batch is the address operand (operand 3) of
MEDIA_CURBE_LOAD or MEDIA_INTERFACE_DESCRIPTOR_LOAD in the stream `s`. -/
def isLoadAddressOperand (s : List Nat) (off : Nat) : Prop :=
  ∃ p ∈ positionsOf s CMD_MEDIA_CURBE_LOAD ++ positionsOf s CMD_MEDIA_INTERFACE_DESCRIPTOR_LOAD,
    off = 4 * (p + 3)

instance (s : List Nat) (off : Nat) : Decidable (isLoadAddressOperand s off) := by
  unfold isLoadAddressOperand
  exact inferInstance

/-- The byte offset `off` of the state buffer is the base-address unit of one
of the 256 surface-state records of the heap. -/
def isSurfaceBaseField (layout : List (List Nat)) (unit off : Nat) : Prop :=
  ∃ k ∈ List.range 256, off = surfaceOffset layout k + 4 * unit

instance (layout : List (List Nat)) (unit off : Nat) :
    Decidable (isSurfaceBaseField layout unit off) := by
  unfold isSurfaceBaseField
  exact inferInstance

/-- The source of the relocation is an address field of a command of the
stream or the base-address field of a surface-state record. -/
def isCommandOrSurfaceField (s : List Nat) (layout : List (List Nat)) (unit : Nat)
    (r : Reloc) : Prop :=
  (r.bo = .batch_buffer ∧ (isSbaOperand s r.offset ∨ isLoadAddressOperand s r.offset)) ∨
  (r.bo = .state_buffer ∧ isSurfaceBaseField layout unit r.offset)

instance (s : List Nat) (layout : List (List Nat)) (unit : Nat) (r : Reloc) :
    Decidable (isCommandOrSurfaceField s layout unit r) := by
  unfold isCommandOrSurfaceField
  exact inferInstance

/-- The source of the relocation is word 58 or word 60 of one of the four
CURBE groups of the state buffer. -/
def isCurbeWord (r : Reloc) : Prop :=
  r.bo = .state_buffer ∧
    ∃ i ∈ List.range 4, r.offset = CURB_OFFSET + 256 * i + 4 * 58 ∨
      r.offset = CURB_OFFSET + 256 * i + 4 * 60

instance (r : Reloc) : Decidable (isCurbeWord r) := by
  unfold isCurbeWord
  exact inferInstance

/-- The source of the relocation is unit `desc0` of interface descriptor 0. -/
def isDescriptorWord (r : Reloc) : Prop :=
  r.bo = .state_buffer ∧ r.offset = IDRT_OFFSET

instance (r : Reloc) : Decidable (isDescriptorWord r) := by
  unfold isDescriptorWord
  exact inferInstance

/-! ## Padding and command kinds -/

/-- The words of a stream accounted for by commands: every header with a
defined opcode found by the walk, with the operand words its length field
covers (a zero word found at a command boundary is not a command header). -/
def coveredPositions (s : List Nat) : List Nat :=
  ((headerPositions s).filter (fun p => s.getD p 0 != 0)).flatMap
    (fun p => List.range' p (commandWords (s.getD p 0)))

/-- The words of a stream that are neither a command header nor an operand
accounted for by a header. -/
def paddingPositions (s : List Nat) : List Nat :=
  (List.range s.length).filter (fun p => !(coveredPositions s).contains p)

/-- Every padding word of the stream is a BATCH_BUFFER_END word. -/
def paddedWithTerminators (s : List Nat) : Prop :=
  ∀ p ∈ paddingPositions s, s.getD p 0 = CMD_BATCH_BUFFER_END

instance (s : List Nat) : Decidable (paddedWithTerminators s) := by
  unfold paddedWithTerminators
  exact inferInstance

/-- The opcode of every word found at a command boundary by the walk, in
stream order (`0` for a zero word). -/
def commandKinds (s : List Nat) : List Nat :=
  (headerPositions s).map (fun p => opcodeOf (s.getD p 0))

/-- Collapse consecutive repeats of a list into one element. -/
def collapse : List Nat → List Nat
  | [] => []
  | [a] => [a]
  | a :: b :: t => if a = b then collapse (b :: t) else a :: collapse (b :: t)

/-- The order of command kinds stated by the specification (section 4.3):
cache flush, L3 configuration, pipeline select, state base address, media
state pointers, CURBE load, descriptor load, dispatch, state flush, final
cache flush, terminator. -/
def specOrder : List Nat :=
  [ CMD_PIPE_CONTROL, CMD_LOAD_REGISTER_IMM, CMD_PIPELINE_SELECT, CMD_STATE_BASE_ADDRESS,
    CMD_MEDIA_STATE_POINTERS, CMD_MEDIA_CURBE_LOAD, CMD_MEDIA_INTERFACE_DESCRIPTOR_LOAD,
    CMD_GPGPU_WALKER, CMD_MEDIA_STATE_FLUSH, CMD_PIPE_CONTROL, CMD_BATCH_BUFFER_END ]

/-! ## Result check and return value of `main` -/

/-- The value of a 32-bit word read through an `int *`. -/
def toInt32 (w : Nat) : Int :=
  if w % 2 ^ 32 < 2 ^ 31 then ((w % 2 ^ 32 : Nat) : Int) else ((w % 2 ^ 32 : Nat) : Int) - 2 ^ 32

/-- Element `i` of `int *input = (int *)input_data` in example_bdw.c and
example_hsw.c. -/
def input_int (i : Nat) : Int := toInt32 (input_word i)

/-- The result check of `main` in example_bdw.c: the final value of
`correct`, for the arrays seen through `int *input` and `int *output`. -/
def count_correct_bdw (input output : Nat → Int) : Nat :=
  (List.range 64).foldl
    (fun correct i => if output i = input i + input i then correct + 1 else correct) 0

/-- The result check of `main` in example_hsw.c. -/
def count_correct_hsw (input output : Nat → Int) : Nat :=
  (List.range 64).foldl
    (fun correct i => if output i = input i + input i then correct + 1 else correct) 0

/-- The macro `DATA_SIZE` of example_opencl.c. -/
def DATA_SIZE : Nat := 64

/-- The loop `for (i = 0; i < count; i++) data[i] = i;` of example_opencl.c,
with `count = DATA_SIZE`, on the array `data` holding `d0` before. -/
def opencl_setup_data (d0 : Nat → Int) : Nat → Int :=
  let count := DATA_SIZE
  (List.range count).foldl (fun data i => fun k => if k = i then (i : Int) else data k) d0

/-- The result check of `main` in example_opencl.c. -/
def count_correct_opencl (data results : Nat → Int) : Nat :=
  let count := DATA_SIZE
  (List.range count).foldl
    (fun correct i => if results i = data i + data i then correct + 1 else correct) 0

/-- The calls whose return value `main` assigns to `err` (example_bdw.c and
example_hsw.c). -/
def storesErr : Call → Bool
  | .bo_subdata _ _ _ _ => true
  | .bo_emit_reloc _ _ _ _ _ _ => true
  | .gem_bo_context_exec _ _ _ => true
  | .bo_busy _ => true
  | .bo_get_subdata _ _ _ => true
  | _ => false

/-- What is left of a run of `main`: the value of `int err` (`none` while it
has not been assigned) and the value returned. -/
structure MainResult where
  err : Option Int
  ret : Int
  deriving DecidableEq, Repr

/-- Run `main` against an external layer: `ext n` is the value returned by
call number `n` of the list.  Each status is assigned to `err`, replacing
the previous one; `main` has no branch on `err` and ends with `return 0;`. -/
def run_main (cs : List Call) (ext : Nat → Int) : MainResult :=
  { err := cs.enum.foldl (fun err nc => if storesErr nc.2 then some (ext nc.1) else err) none,
    ret := 0 }

/-- A failure of an external call is propagated: whenever a call whose
status is stored in `err` returns a non-zero code, `main` does not return 0. -/
def errorPropagated (cs : List Call) : Prop :=
  ∀ ext : Nat → Int, (∃ n c, cs[n]? = some c ∧ storesErr c = true ∧ ext n ≠ 0) →
    (run_main cs ext).ret ≠ 0

/-- An external layer in which the first upload (call 3, the upload of the
kernel) fails with `-EIO` and every other call succeeds. -/
def ext_first_upload_fails : Nat → Int := fun n => if n = 3 then -5 else 0

/-! ## Descriptor image and relocated words -/

/-- The descriptor image built by `setup_idrt0` from a zeroed descriptor. -/
def idrt_bdw : Mem := setup_idrt0 0 zeroMem

/-- The descriptor image built by `setup_idrt` from a zeroed descriptor. -/
def idrt_hsw : Mem := setup_idrt 0 zeroMem

/-- The 32-bit words `0 .. n-1` of an image starting at byte `base`. -/
def wordsOf (m : Mem) (base n : Nat) : List Nat :=
  (List.range n).map (fun k => load32 m (base + 4 * k))

/-- Size in bytes of one general register (GRF), the unit of
`curbe_read_len` ("in GRFs" in the struct declaration). -/
def GRF_BYTES : Nat := 32

/-- The 32-bit word at the source of a relocation, in the source image as
built: word `offset / 4` of the emitted stream (zero past its end, as the
batch array starts zeroed) for the batch buffer, the word at `offset` of the
state array for the state buffer. -/
def sourceWord (s : List Nat) (state : Mem) (r : Reloc) : Nat :=
  match r.bo with
  | .batch_buffer => s.getD (r.offset / 4) 0
  | .state_buffer => load32 state r.offset
  | _ => 0

/-- The relocations of a run whose source word differs from their target
offset. -/
def relocsNotPlaceholder (cs : List Call) (s : List Nat) (state : Mem) : List Reloc :=
  (relocsOf cs).filter (fun r => sourceWord s state r != r.target_offset)

/-- The source of the relocation is a 32-bit word inside one of the four
256-byte CURBE groups of the state buffer. -/
def isCurbeGroupWord (r : Reloc) : Prop :=
  r.bo = .state_buffer ∧
    ∃ i ∈ List.range 4, CURB_OFFSET + 256 * i ≤ r.offset ∧
      r.offset + 4 ≤ CURB_OFFSET + 256 * (i + 1)

instance (r : Reloc) : Decidable (isCurbeGroupWord r) := by
  unfold isCurbeGroupWord
  exact inferInstance

/-- The source of the relocation is word 58 of one of the four CURBE groups
of the state buffer. -/
def isCurbeWord58 (r : Reloc) : Prop :=
  r.bo = .state_buffer ∧ ∃ i ∈ List.range 4, r.offset = CURB_OFFSET + 256 * i + 4 * 58

instance (r : Reloc) : Decidable (isCurbeWord58 r) := by
  unfold isCurbeWord58
  exact inferInstance

/-! ## Theorems -/

/-! ### Memory and bit-field lemmas -/

theorem store32_frame (m : Mem) (a v b : Nat) (h : b < a ∨ a + 4 ≤ b) :
    store32 m a v b = m b := by
  unfold store32
  have h0 : b ≠ a := by omega
  have h1 : b ≠ a + 1 := by omega
  have h2 : b ≠ a + 2 := by omega
  have h3 : b ≠ a + 3 := by omega
  simp [h0, h1, h2, h3]

theorem storeField_frame (m : Mem) (a : Nat) (ws : List Nat) (i v b : Nat)
    (h : b < a ∨ a + 4 ≤ b) : storeField m a ws i v b = m b :=
  store32_frame m a _ b h

theorem load32_store32_same (m : Mem) (a v : Nat) :
    load32 (store32 m a v) a = v % 2 ^ 32 := by
  simp only [load32, store32]
  simp
  omega

theorem load32_store32_other (m : Mem) (a v b : Nat) (h : a + 4 ≤ b ∨ b + 4 ≤ a) :
    load32 (store32 m a v) b = load32 m b := by
  unfold load32
  rw [store32_frame m a v b (by omega), store32_frame m a v (b + 1) (by omega),
    store32_frame m a v (b + 2) (by omega), store32_frame m a v (b + 3) (by omega)]

theorem testBit_getBits (x s n i : Nat) :
    (getBits x s n).testBit i = (x.testBit (s + i) && decide (i < n)) := by
  simp [getBits, Nat.testBit_and, Nat.testBit_shiftRight, Nat.testBit_two_pow_sub_one,
    Bool.and_comm]

theorem testBit_setBits (x s n v i : Nat) (h : s + n ≤ 32) :
    (setBits x s n v).testBit i =
      if s ≤ i ∧ i < s + n then v.testBit (i - s) else (x.testBit i && decide (i < 32)) := by
  simp only [setBits, Nat.testBit_or, Nat.testBit_and, Nat.testBit_xor, Nat.testBit_shiftLeft,
    Nat.testBit_two_pow_sub_one]
  by_cases hin : s ≤ i ∧ i < s + n
  · have h1 : i - s < n := by omega
    have h2 : i < 32 := by omega
    simp [hin, h1, h2]
  · by_cases h1 : s ≤ i
    · have h2 : ¬ (i - s < n) := by omega
      have h3 : ¬ (i < s + n) := by omega
      simp [h1, h2, h3]
    · simp [hin, h1]

theorem getBits_setBits_same (x s n v : Nat) (h : s + n ≤ 32) :
    getBits (setBits x s n v % 2 ^ 32) s n = v % 2 ^ n := by
  apply Nat.eq_of_testBit_eq
  intro i
  rw [testBit_getBits, Nat.testBit_mod_two_pow, testBit_setBits _ _ _ _ _ h,
    Nat.testBit_mod_two_pow]
  by_cases h1 : i < n
  · have : s + i < 32 := by omega
    simp [h1, this]
  · simp [h1]

theorem getBits_setBits_other (x s n v s1 n1 : Nat) (h : s + n ≤ 32) (h1 : s1 + n1 ≤ 32)
    (hd : s + n ≤ s1 ∨ s1 + n1 ≤ s) :
    getBits (setBits x s n v % 2 ^ 32) s1 n1 = getBits x s1 n1 := by
  apply Nat.eq_of_testBit_eq
  intro i
  rw [testBit_getBits, testBit_getBits, Nat.testBit_mod_two_pow, testBit_setBits _ _ _ _ _ h]
  by_cases h2 : i < n1
  · have h3 : s1 + i < 32 := by omega
    have h4 : ¬ (s ≤ s1 + i ∧ s1 + i < s + n) := by omega
    simp [h2, h3, h4]
  · simp [h2]

theorem loadField_storeField_same (m : Mem) (a : Nat) (ws : List Nat) (i v : Nat)
    (h : fieldShift ws i + fieldWidth ws i ≤ 32) :
    loadField (storeField m a ws i v) a ws i = v % 2 ^ fieldWidth ws i := by
  unfold loadField storeField
  rw [load32_store32_same, getBits_setBits_same _ _ _ _ h]

theorem loadField_storeField_unit (m : Mem) (a : Nat) (ws ws1 : List Nat) (i j v : Nat)
    (h : fieldShift ws i + fieldWidth ws i ≤ 32)
    (h1 : fieldShift ws1 j + fieldWidth ws1 j ≤ 32)
    (hd : fieldShift ws i + fieldWidth ws i ≤ fieldShift ws1 j ∨
      fieldShift ws1 j + fieldWidth ws1 j ≤ fieldShift ws i) :
    loadField (storeField m a ws i v) a ws1 j = loadField m a ws1 j := by
  unfold loadField storeField
  rw [load32_store32_same, getBits_setBits_other _ _ _ _ _ _ h h1 hd]

theorem loadField_storeField_other (m : Mem) (a b : Nat) (ws ws1 : List Nat) (i j v : Nat)
    (h : a + 4 ≤ b ∨ b + 4 ≤ a) :
    loadField (storeField m a ws i v) b ws1 j = loadField m b ws1 j := by
  unfold loadField storeField
  rw [load32_store32_other _ _ _ _ h]

theorem foldl_frame {α : Type} (f : Mem → α → Mem) (b : Nat) (xs : List α)
    (h : ∀ x ∈ xs, ∀ m : Mem, f m x b = m b) (m : Mem) : xs.foldl f m b = m b := by
  induction xs generalizing m with
  | nil => rfl
  | cons x xs ih =>
    rw [List.foldl_cons, ih (fun y hy => h y (List.mem_cons_of_mem x hy)),
      h x (List.mem_cons_self x xs)]



/-! ### C1: length fields -/

set_option maxRecDepth 100000 in
/-- Claim C1: in both emitted streams (74 words on BDW, 112 on HSW) the walk
from word 0, with one word for PIPELINE_SELECT, BATCH_BUFFER_END and a zero
word and length field + 2 words for every other header, reaches only defined
opcodes (or zero), stops exactly at the end of the stream with the final
word as its last header, and every multi-word command has a length field
equal to its word count minus 2. -/
theorem C1_length_fields :
    (setup_batch0.length = 74 ∧ walkConsistent setup_batch0 ∧
      headerPositions setup_batch0 = [0, 6, 9, 15, 16, 32, 41, 45, 49, 64, 66, 72, 73]) ∧
    (setup_batch.length = 112 ∧ walkConsistent setup_batch ∧
      headerPositions setup_batch =
        [0, 5, 10, 13, 16, 19, 22, 25, 30, 35, 36, 46, 54, 58, 62, 73, 75, 80, 85, 88, 91,
          94, 97, 100, 105, 110, 111]) := by
  decide

/-! ### C2: terminator and batch length -/

set_option maxRecDepth 100000 in
/-- Claim C2: the last word emitted by each batch builder is
CMD_BATCH_BUFFER_END = 0x05000000; the length handed to execution (296 on
BDW, 448 on HSW) is 4 times the number of emitted words, a multiple of 8,
and at most the 512 bytes uploaded from offset 0 into the batch buffer. -/
theorem C2_terminator_and_length :
    CMD_BATCH_BUFFER_END = 0x05000000 ∧
    (setup_batch0.getLast? = some CMD_BATCH_BUFFER_END ∧
      execLengths main_bdw .batch_buffer = [296] ∧
      296 = 4 * setup_batch0.length ∧ 296 % 8 = 0 ∧
      uploads main_bdw .batch_buffer = [(0, 512)] ∧ 296 ≤ 512) ∧
    (setup_batch.getLast? = some CMD_BATCH_BUFFER_END ∧
      execLengths main_hsw .batch_buffer = [448] ∧
      448 = 4 * setup_batch.length ∧ 448 % 8 = 0 ∧
      uploads main_hsw .batch_buffer = [(0, 512)] ∧ 448 ≤ 512) := by
  decide

/-! ### C3: command order -/

set_option maxRecDepth 100000 in
/-- Claim C3: in each stream STATE_BASE_ADDRESS occurs exactly once (as a
header, and as a word at all) and before the MEDIA_STATE_POINTERS,
MEDIA_CURBE_LOAD, MEDIA_INTERFACE_DESCRIPTOR_LOAD and GPGPU_WALKER headers,
each of which occurs; the CURBE and descriptor loads precede the single
GPGPU_WALKER; and the single PIPELINE_SELECT, in GPGPU mode, precedes
STATE_BASE_ADDRESS. -/
theorem C3_command_order :
    (positionsOf setup_batch0 CMD_STATE_BASE_ADDRESS = [16] ∧
      rawCount setup_batch0 CMD_STATE_BASE_ADDRESS = 1 ∧
      positionsOf setup_batch0 CMD_MEDIA_STATE_POINTERS = [32] ∧
      positionsOf setup_batch0 CMD_MEDIA_CURBE_LOAD = [41] ∧
      positionsOf setup_batch0 CMD_MEDIA_INTERFACE_DESCRIPTOR_LOAD = [45] ∧
      positionsOf setup_batch0 CMD_GPGPU_WALKER = [49] ∧
      positionsOf setup_batch0 CMD_PIPELINE_SELECT = [15] ∧
      setup_batch0.getD 15 0 = CMD_PIPELINE_SELECT ||| PIPELINE_SELECT_GPGPU ∧
      allBefore (positionsOf setup_batch0 CMD_STATE_BASE_ADDRESS)
        (positionsOf setup_batch0 CMD_MEDIA_STATE_POINTERS ++
          positionsOf setup_batch0 CMD_MEDIA_CURBE_LOAD ++
          positionsOf setup_batch0 CMD_MEDIA_INTERFACE_DESCRIPTOR_LOAD ++
          positionsOf setup_batch0 CMD_GPGPU_WALKER) ∧
      allBefore (positionsOf setup_batch0 CMD_MEDIA_CURBE_LOAD ++
          positionsOf setup_batch0 CMD_MEDIA_INTERFACE_DESCRIPTOR_LOAD)
        (positionsOf setup_batch0 CMD_GPGPU_WALKER) ∧
      allBefore (positionsOf setup_batch0 CMD_PIPELINE_SELECT)
        (positionsOf setup_batch0 CMD_STATE_BASE_ADDRESS)) ∧
    (positionsOf setup_batch CMD_STATE_BASE_ADDRESS = [36] ∧
      rawCount setup_batch CMD_STATE_BASE_ADDRESS = 1 ∧
      positionsOf setup_batch CMD_MEDIA_STATE_POINTERS = [46] ∧
      positionsOf setup_batch CMD_MEDIA_CURBE_LOAD = [54] ∧
      positionsOf setup_batch CMD_MEDIA_INTERFACE_DESCRIPTOR_LOAD = [58] ∧
      positionsOf setup_batch CMD_GPGPU_WALKER = [62] ∧
      positionsOf setup_batch CMD_PIPELINE_SELECT = [35] ∧
      setup_batch.getD 35 0 = CMD_PIPELINE_SELECT ||| PIPELINE_SELECT_GPGPU ∧
      allBefore (positionsOf setup_batch CMD_STATE_BASE_ADDRESS)
        (positionsOf setup_batch CMD_MEDIA_STATE_POINTERS ++
          positionsOf setup_batch CMD_MEDIA_CURBE_LOAD ++
          positionsOf setup_batch CMD_MEDIA_INTERFACE_DESCRIPTOR_LOAD ++
          positionsOf setup_batch CMD_GPGPU_WALKER) ∧
      allBefore (positionsOf setup_batch CMD_MEDIA_CURBE_LOAD ++
          positionsOf setup_batch CMD_MEDIA_INTERFACE_DESCRIPTOR_LOAD)
        (positionsOf setup_batch CMD_GPGPU_WALKER) ∧
      allBefore (positionsOf setup_batch CMD_PIPELINE_SELECT)
        (positionsOf setup_batch CMD_STATE_BASE_ADDRESS)) := by
  decide

/-! ### C4: relocation offsets -/

set_option maxRecDepth 100000 in
/-- Claim C4: main registers 13 relocations on BDW (2 surface, 8 CURBE, 3
batch) and 14 on HSW (one more for the descriptor); each has the state
buffer (36864 bytes) or the batch buffer (512 bytes) as its source, its
patched 32-bit word lies inside that buffer, and a batch relocation lies
below the executed length (296 on BDW, 448 on HSW). -/
theorem C4_relocations_in_bounds :
    ((relocsOf main_bdw).length = 13 ∧
      allocSizes main_bdw .state_buffer = [36864] ∧
      allocSizes main_bdw .batch_buffer = [512] ∧
      ((relocsOf main_bdw).filter (fun r => r.bo = .state_buffer)).length = 10 ∧
      ((relocsOf main_bdw).filter (fun r => r.bo = .batch_buffer)).length = 3 ∧
      (∀ r ∈ relocsOf main_bdw, relocInside main_bdw r ∧
        (r.bo = .state_buffer → r.offset + 4 ≤ 36864) ∧
        (r.bo = .batch_buffer → r.offset + 4 ≤ 512 ∧
          ∀ used ∈ execLengths main_bdw .batch_buffer, r.offset + 4 ≤ used))) ∧
    ((relocsOf main_hsw).length = 14 ∧
      allocSizes main_hsw .state_buffer = [36864] ∧
      allocSizes main_hsw .batch_buffer = [512] ∧
      ((relocsOf main_hsw).filter (fun r => r.bo = .state_buffer)).length = 11 ∧
      ((relocsOf main_hsw).filter (fun r => r.bo = .batch_buffer)).length = 3 ∧
      (∀ r ∈ relocsOf main_hsw, relocInside main_hsw r ∧
        (r.bo = .state_buffer → r.offset + 4 ≤ 36864) ∧
        (r.bo = .batch_buffer → r.offset + 4 ≤ 512 ∧
          ∀ used ∈ execLengths main_hsw .batch_buffer, r.offset + 4 ≤ used))) := by
  decide

set_option maxRecDepth 100000 in
/-- Witness for C4: the input-surface relocation of the BDW program lies
inside the state buffer. -/
theorem C4_relocations_in_bounds_witness :
    relocInside main_bdw ⟨.state_buffer, 1184, .input_buffer, 0, 2, 2⟩ :=
  (C4_relocations_in_bounds.1.2.2.2.2.2 ⟨.state_buffer, 1184, .input_buffer, 0, 2, 2⟩
    (by decide)).1

/-! ### C5: binding table -/

set_option maxRecDepth 1000000 in
/-- Claim C5: in the heap image built from a zeroed buffer, for k = 2 and
k = 3 the entry binding_table[k] is the byte offset 1024 + k * (record size)
of surface record k, the record size being 64 bytes on BDW (1152, 1216) and
32 bytes on HSW (1088, 1120); the surface state is found at these offsets,
the two records are disjoint, lie after the 1024-byte binding table and
before CURB_OFFSET, and every other binding-table entry is zero. -/
theorem C5_binding_table :
    (sizeofWords gen8_surface_state_t = 64 ∧
      (∀ k, k = 2 ∨ k = 3 →
        load32 heap_bdw (4 * k) = surfaceOffset gen8_surface_state_t k ∧
        surfaceOffset gen8_surface_state_t k = 1024 + k * 64 ∧
        loadField heap_bdw (surfaceOffset gen8_surface_state_t k) gen8_ss0 14 = 511) ∧
      load32 heap_bdw (4 * 2) = 1152 ∧ load32 heap_bdw (4 * 3) = 1216 ∧
      load32 heap_bdw (4 * 2) + 64 ≤ load32 heap_bdw (4 * 3) ∧
      4 * 256 ≤ load32 heap_bdw (4 * 2) ∧
      load32 heap_bdw (4 * 3) + 64 ≤ CURB_OFFSET ∧
      (∀ k, k < 256 → k ≠ 2 → k ≠ 3 → load32 heap_bdw (4 * k) = 0)) ∧
    (sizeofWords gen7_surface_state_t = 32 ∧
      (∀ k, k = 2 ∨ k = 3 →
        load32 heap_hsw (4 * k) = surfaceOffset gen7_surface_state_t k ∧
        surfaceOffset gen7_surface_state_t k = 1024 + k * 32 ∧
        loadField heap_hsw (surfaceOffset gen7_surface_state_t k) gen7_ss0 16 = 511) ∧
      load32 heap_hsw (4 * 2) = 1088 ∧ load32 heap_hsw (4 * 3) = 1120 ∧
      load32 heap_hsw (4 * 2) + 32 ≤ load32 heap_hsw (4 * 3) ∧
      4 * 256 ≤ load32 heap_hsw (4 * 2) ∧
      load32 heap_hsw (4 * 3) + 32 ≤ CURB_OFFSET ∧
      (∀ k, k < 256 → k ≠ 2 → k ≠ 3 → load32 heap_hsw (4 * k) = 0)) := by
  refine ⟨⟨by decide, ?_, by decide, by decide, by decide, by decide, by decide, by decide⟩,
    ⟨by decide, ?_, by decide, by decide, by decide, by decide, by decide, by decide⟩⟩
  · rintro k (rfl | rfl) <;> decide
  · rintro k (rfl | rfl) <;> decide

/-- Witness for C5: binding_table[2] of the BDW heap is the offset of
surface record 2. -/
theorem C5_binding_table_witness :
    load32 heap_bdw (4 * 2) = surfaceOffset gen8_surface_state_t 2 :=
  (C5_binding_table.1.2.1 2 (Or.inl rfl)).1

/-! ### C6: surface relocations -/

set_option maxRecDepth 1000000 in
/-- Claim C6: the two surface relocations (the first two registered, and the
only ones whose source lies in the surface heap) patch the base-address word
of the records the binding table points to: source offset binding_table[2]
plus the byte offset of the base-address unit for the input buffer and
binding_table[3] plus that offset for the output buffer, the unit being ss8
(byte 32) on BDW and ss1 (byte 4) on HSW; that is SRFC_OFFSET + 160 = 1184
and 1248 on BDW, SRFC_OFFSET + 68 = 1092 and 1124 on HSW, with target
offset 0. -/
theorem C6_surface_relocations :
    (gen8_surface_state_t.getD gen8_base_addr_unit [] = gen8_ss8 ∧
      4 * gen8_base_addr_unit = 32 ∧
      (relocsOf main_bdw).take 2 =
        [ ⟨.state_buffer, load32 heap_bdw (4 * 2) + 4 * gen8_base_addr_unit,
            .input_buffer, 0, 2, 2⟩,
          ⟨.state_buffer, load32 heap_bdw (4 * 3) + 4 * gen8_base_addr_unit,
            .output_buffer, 0, 2, 2⟩ ] ∧
      (relocsOf main_bdw).filter (fun r => r.bo = .state_buffer ∧ r.offset < CURB_OFFSET) =
        (relocsOf main_bdw).take 2 ∧
      ((relocsOf main_bdw).map (fun r => r.offset)).take 2 =
        [SRFC_OFFSET + 160, SRFC_OFFSET + 160 + 64] ∧
      SRFC_OFFSET + 160 = 1184 ∧ SRFC_OFFSET + 160 + 64 = 1248) ∧
    (gen7_surface_state_t.getD gen7_base_addr_unit [] = gen7_ss1 ∧
      4 * gen7_base_addr_unit = 4 ∧
      (relocsOf main_hsw).take 2 =
        [ ⟨.state_buffer, load32 heap_hsw (4 * 2) + 4 * gen7_base_addr_unit,
            .input_buffer, 0, 2, 2⟩,
          ⟨.state_buffer, load32 heap_hsw (4 * 3) + 4 * gen7_base_addr_unit,
            .output_buffer, 0, 2, 2⟩ ] ∧
      (relocsOf main_hsw).filter (fun r => r.bo = .state_buffer ∧ r.offset < CURB_OFFSET) =
        (relocsOf main_hsw).take 2 ∧
      ((relocsOf main_hsw).map (fun r => r.offset)).take 2 =
        [SRFC_OFFSET + 68, SRFC_OFFSET + 68 + 32] ∧
      SRFC_OFFSET + 68 = 1092 ∧ SRFC_OFFSET + 68 + 32 = 1124) := by
  decide


/-! ### C7: surface-state round trip -/

set_option maxRecDepth 100000 in
theorem layouts_fill_units :
    (∀ ws ∈ gen8_surface_state_t, ws.sum = 32) ∧
    (∀ ws ∈ gen7_surface_state_t, ws.sum = 32) ∧
    (∀ ws ∈ gen8_interface_descriptor_t, ws.sum = 32) ∧
    (∀ ws ∈ gen6_interface_descriptor_t, ws.sum = 32) := by
  decide

set_option maxRecDepth 100000 in
theorem gen8_layoutDisjoint : layoutDisjoint gen8_surface_state_t := by decide

set_option maxRecDepth 100000 in
theorem gen7_layoutDisjoint : layoutDisjoint gen7_surface_state_t := by decide

theorem fieldsIndependent_of_layoutDisjoint (layout : List (List Nat))
    (hl : layoutDisjoint layout) : fieldsIndependent layout := by
  intro m base k v u i u1 j hu hi hu1 hj hne
  have hmem : layout.getD u [] ∈ layout := by
    rw [List.getD_eq_getElem _ _ hu]
    exact List.getElem_mem hu
  have hmem1 : layout.getD u1 [] ∈ layout := by
    rw [List.getD_eq_getElem _ _ hu1]
    exact List.getElem_mem hu1
  by_cases huu : u = u1
  · subst huu
    have hij : i ≠ j := fun h => hne (by rw [h])
    have h1 := hl _ hmem i hi j hj
    have h2 := hl _ hmem j hj i hi
    exact loadField_storeField_unit _ _ _ _ _ _ _ h1.1 h2.1 (h1.2 hij)
  · apply loadField_storeField_other
    unfold unitAddr
    omega

theorem decode_encode_gen8 (srfc k f t c w h : Nat) (m : Mem)
    (hf : f < 2 ^ 9) (ht : t < 2 ^ 3) (hc : c < 2 ^ 7) (hw : w < 2 ^ 14) (hh : h < 2 ^ 14) :
    decode_gen8 srfc k (encode_gen8 srfc k f t c w h m) = (f, t, c, w, h) := by
  simp only [decode_gen8, encode_gen8]
  have e1 : ∀ a b : Nat, unitAddr srfc (sizeofWords gen8_surface_state_t) k a + 4 ≤
        unitAddr srfc (sizeofWords gen8_surface_state_t) k b ∨
      unitAddr srfc (sizeofWords gen8_surface_state_t) k b + 4 ≤
        unitAddr srfc (sizeofWords gen8_surface_state_t) k a ↔ a ≠ b := by
    intro a b
    unfold unitAddr
    omega
  have a20 := (e1 2 0).2 (by decide)
  have a10 := (e1 1 0).2 (by decide)
  have a21 := (e1 2 1).2 (by decide)
  refine Prod.ext ?_ (Prod.ext ?_ (Prod.ext ?_ (Prod.ext ?_ ?_)))
  · show loadField _ _ _ _ = f
    rw [loadField_storeField_other _ _ _ _ _ _ _ _ a20,
      loadField_storeField_other _ _ _ _ _ _ _ _ a20,
      loadField_storeField_other _ _ _ _ _ _ _ _ a10,
      loadField_storeField_unit _ _ _ _ _ _ _ (by decide) (by decide) (by decide),
      loadField_storeField_same _ _ _ _ _ (by decide)]
    exact Nat.mod_eq_of_lt hf
  · show loadField _ _ _ _ = t
    rw [loadField_storeField_other _ _ _ _ _ _ _ _ a20,
      loadField_storeField_other _ _ _ _ _ _ _ _ a20,
      loadField_storeField_other _ _ _ _ _ _ _ _ a10,
      loadField_storeField_same _ _ _ _ _ (by decide)]
    exact Nat.mod_eq_of_lt ht
  · show loadField _ _ _ _ = c
    rw [loadField_storeField_other _ _ _ _ _ _ _ _ a21,
      loadField_storeField_other _ _ _ _ _ _ _ _ a21,
      loadField_storeField_same _ _ _ _ _ (by decide)]
    exact Nat.mod_eq_of_lt hc
  · show loadField _ _ _ _ = w
    rw [loadField_storeField_unit _ _ _ _ _ _ _ (by decide) (by decide) (by decide),
      loadField_storeField_same _ _ _ _ _ (by decide)]
    exact Nat.mod_eq_of_lt hw
  · show loadField _ _ _ _ = h
    rw [loadField_storeField_same _ _ _ _ _ (by decide)]
    exact Nat.mod_eq_of_lt hh

theorem decode_encode_gen7 (srfc k f t w h c : Nat) (m : Mem)
    (hf : f < 2 ^ 9) (ht : t < 2 ^ 3) (hw : w < 2 ^ 14) (hh : h < 2 ^ 14) (hc : c < 2 ^ 4) :
    decode_gen7 srfc k (encode_gen7 srfc k f t w h c m) = (f, t, w, h, c) := by
  simp only [decode_gen7, encode_gen7]
  have e1 : ∀ a b : Nat, unitAddr srfc (sizeofWords gen7_surface_state_t) k a + 4 ≤
        unitAddr srfc (sizeofWords gen7_surface_state_t) k b ∨
      unitAddr srfc (sizeofWords gen7_surface_state_t) k b + 4 ≤
        unitAddr srfc (sizeofWords gen7_surface_state_t) k a ↔ a ≠ b := by
    intro a b
    unfold unitAddr
    omega
  have a50 := (e1 5 0).2 (by decide)
  have a20 := (e1 2 0).2 (by decide)
  have a52 := (e1 5 2).2 (by decide)
  refine Prod.ext ?_ (Prod.ext ?_ (Prod.ext ?_ (Prod.ext ?_ ?_)))
  · show loadField _ _ _ _ = f
    rw [loadField_storeField_other _ _ _ _ _ _ _ _ a50,
      loadField_storeField_other _ _ _ _ _ _ _ _ a20,
      loadField_storeField_other _ _ _ _ _ _ _ _ a20,
      loadField_storeField_unit _ _ _ _ _ _ _ (by decide) (by decide) (by decide),
      loadField_storeField_same _ _ _ _ _ (by decide)]
    exact Nat.mod_eq_of_lt hf
  · show loadField _ _ _ _ = t
    rw [loadField_storeField_other _ _ _ _ _ _ _ _ a50,
      loadField_storeField_other _ _ _ _ _ _ _ _ a20,
      loadField_storeField_other _ _ _ _ _ _ _ _ a20,
      loadField_storeField_same _ _ _ _ _ (by decide)]
    exact Nat.mod_eq_of_lt ht
  · show loadField _ _ _ _ = w
    rw [loadField_storeField_other _ _ _ _ _ _ _ _ a52,
      loadField_storeField_unit _ _ _ _ _ _ _ (by decide) (by decide) (by decide),
      loadField_storeField_same _ _ _ _ _ (by decide)]
    exact Nat.mod_eq_of_lt hw
  · show loadField _ _ _ _ = h
    rw [loadField_storeField_other _ _ _ _ _ _ _ _ a52,
      loadField_storeField_same _ _ _ _ _ (by decide)]
    exact Nat.mod_eq_of_lt hh
  · show loadField _ _ _ _ = c
    rw [loadField_storeField_same _ _ _ _ _ (by decide)]
    exact Nat.mod_eq_of_lt hc

set_option maxRecDepth 1000000 in
theorem heap_words :
    (load32 heap_bdw (surfaceOffset gen8_surface_state_t 2 + 4 * 0) = 0x87FC0000 ∧
      load32 heap_bdw (surfaceOffset gen8_surface_state_t 2 + 4 * 1) = 0x78000000 ∧
      load32 heap_bdw (surfaceOffset gen8_surface_state_t 2 + 4 * 2) = 0x0001007F ∧
      load32 heap_bdw (surfaceOffset gen8_surface_state_t 3 + 4 * 0) = 0x87FC0000 ∧
      load32 heap_bdw (surfaceOffset gen8_surface_state_t 3 + 4 * 1) = 0x78000000 ∧
      load32 heap_bdw (surfaceOffset gen8_surface_state_t 3 + 4 * 2) = 0x0001007F) ∧
    (load32 heap_hsw (surfaceOffset gen7_surface_state_t 2 + 4 * 0) = 0x87FC0000 ∧
      load32 heap_hsw (surfaceOffset gen7_surface_state_t 2 + 4 * 2) = 0x0001007F ∧
      load32 heap_hsw (surfaceOffset gen7_surface_state_t 2 + 4 * 5) = 0x00050000 ∧
      load32 heap_hsw (surfaceOffset gen7_surface_state_t 3 + 4 * 0) = 0x87FC0000 ∧
      load32 heap_hsw (surfaceOffset gen7_surface_state_t 3 + 4 * 2) = 0x0001007F ∧
      load32 heap_hsw (surfaceOffset gen7_surface_state_t 3 + 4 * 5) = 0x00050000) := by
  decide

theorem setup_heap0_eq_encode (data : Nat) (m : Mem) :
    setup_heap0 data m =
      encode_gen8 (data + 1024) 3 511 4 120 127 1
        (encode_gen8 (data + 1024) 2 511 4 120 127 1
          (store32 (store32 m (data + 4 * 2) 1152) (data + 4 * 3) 1216)) := rfl

theorem setup_heap_eq_encode (data : Nat) (m : Mem) :
    setup_heap data m =
      encode_gen7 (data + 1024) 3 511 4 127 1 5
        (encode_gen7 (data + 1024) 2 511 4 127 1 5
          (store32 (store32 m (data + 4 * 2) 1088) (data + 4 * 3) 1120)) := rfl

/-- Claim C7: for each generation, with bit-fields allocated from the least
significant bit of each 32-bit unit in declaration order, assigning
surface_format f < 2^9, surface_type t < 2^3, width w < 2^14, height
h < 2^14 and the cache-control value (mem_obj_ctrl_state c8 < 2^7 in ss1 on
BDW, cache_control c7 < 2^4 in ss5 on HSW) to a record (zeroed or not) and
reading the fields back by shift and mask returns exactly the assigned
values; writing any field of a record changes no other field of it; the
builders are these assignments with the values 511, 4, 127, 1 and 120 or 5;
and the records built have ss0 = 0x87FC0000, ss2 = 0x0001007F and
ss1 = 0x78000000 (BDW) or ss5 = 0x00050000 (HSW). -/
theorem C7_surface_roundtrip (srfc k f t w h c8 c7 : Nat) (m : Mem)
    (hf : f < 2 ^ 9) (ht : t < 2 ^ 3) (hw : w < 2 ^ 14) (hh : h < 2 ^ 14)
    (hc8 : c8 < 2 ^ 7) (hc7 : c7 < 2 ^ 4) :
    decode_gen8 srfc k (encode_gen8 srfc k f t c8 w h m) = (f, t, c8, w, h) ∧
    decode_gen7 srfc k (encode_gen7 srfc k f t w h c7 m) = (f, t, w, h, c7) ∧
    fieldsIndependent gen8_surface_state_t ∧
    fieldsIndependent gen7_surface_state_t ∧
    (∀ data m0, setup_heap0 data m0 =
      encode_gen8 (data + 1024) 3 511 4 120 127 1
        (encode_gen8 (data + 1024) 2 511 4 120 127 1
          (store32 (store32 m0 (data + 4 * 2) 1152) (data + 4 * 3) 1216))) ∧
    (∀ data m0, setup_heap data m0 =
      encode_gen7 (data + 1024) 3 511 4 127 1 5
        (encode_gen7 (data + 1024) 2 511 4 127 1 5
          (store32 (store32 m0 (data + 4 * 2) 1088) (data + 4 * 3) 1120))) ∧
    (load32 heap_bdw (surfaceOffset gen8_surface_state_t 2 + 4 * 0) = 0x87FC0000 ∧
      load32 heap_bdw (surfaceOffset gen8_surface_state_t 2 + 4 * 1) = 0x78000000 ∧
      load32 heap_bdw (surfaceOffset gen8_surface_state_t 2 + 4 * 2) = 0x0001007F ∧
      load32 heap_bdw (surfaceOffset gen8_surface_state_t 3 + 4 * 0) = 0x87FC0000 ∧
      load32 heap_bdw (surfaceOffset gen8_surface_state_t 3 + 4 * 1) = 0x78000000 ∧
      load32 heap_bdw (surfaceOffset gen8_surface_state_t 3 + 4 * 2) = 0x0001007F) ∧
    (load32 heap_hsw (surfaceOffset gen7_surface_state_t 2 + 4 * 0) = 0x87FC0000 ∧
      load32 heap_hsw (surfaceOffset gen7_surface_state_t 2 + 4 * 2) = 0x0001007F ∧
      load32 heap_hsw (surfaceOffset gen7_surface_state_t 2 + 4 * 5) = 0x00050000 ∧
      load32 heap_hsw (surfaceOffset gen7_surface_state_t 3 + 4 * 0) = 0x87FC0000 ∧
      load32 heap_hsw (surfaceOffset gen7_surface_state_t 3 + 4 * 2) = 0x0001007F ∧
      load32 heap_hsw (surfaceOffset gen7_surface_state_t 3 + 4 * 5) = 0x00050000) :=
  ⟨decode_encode_gen8 srfc k f t c8 w h m hf ht hc8 hw hh,
    decode_encode_gen7 srfc k f t w h c7 m hf ht hw hh hc7,
    fieldsIndependent_of_layoutDisjoint _ gen8_layoutDisjoint,
    fieldsIndependent_of_layoutDisjoint _ gen7_layoutDisjoint,
    setup_heap0_eq_encode, setup_heap_eq_encode, heap_words.1, heap_words.2⟩

/-- Witness for C7: the values of the builders, written into zeroed records
at the offsets of surface[2], read back unchanged. -/
theorem C7_surface_roundtrip_witness :
    decode_gen8 1024 2 (encode_gen8 1024 2 511 4 120 127 1 zeroMem) = (511, 4, 120, 127, 1) ∧
    decode_gen7 1024 2 (encode_gen7 1024 2 511 4 127 1 5 zeroMem) = (511, 4, 127, 1, 5) :=
  ⟨(C7_surface_roundtrip 1024 2 511 4 127 1 120 5 zeroMem (by decide) (by decide) (by decide)
      (by decide) (by decide) (by decide)).1,
    (C7_surface_roundtrip 1024 2 511 4 127 1 120 5 zeroMem (by decide) (by decide) (by decide)
      (by decide) (by decide) (by decide)).2.1⟩


/-! ### C8: surface sizes -/

set_option maxRecDepth 1000000 in
/-- Claim C8: in both generations the surface records 2 (input) and 3
(output) hold width = (256 - 1) mod 2^7 = 127, height = ((256 - 1) div 2^7)
mod 2^14 = 1 and depth = (256 - 1) div 2^21 = 0, so the size they describe,
(depth * 2^21 + height * 2^7 + width) + 1, is 256: the byte size allocated
for the input and output buffers, uploaded into the input buffer and read
back from the output buffer, and 64 * sizeof(int). -/
theorem C8_surface_sizes :
    (∀ k, k = 2 ∨ k = 3 →
      loadField heap_bdw (surfaceOffset gen8_surface_state_t k + 4 * 2) gen8_ss2 0 =
        (256 - 1) % 2 ^ 7 ∧
      loadField heap_bdw (surfaceOffset gen8_surface_state_t k + 4 * 2) gen8_ss2 2 =
        ((256 - 1) / 2 ^ 7) % 2 ^ 14 ∧
      loadField heap_bdw (surfaceOffset gen8_surface_state_t k + 4 * 3) gen8_ss3 3 =
        (256 - 1) / 2 ^ 21 ∧
      bufferSurfaceSize
        (loadField heap_bdw (surfaceOffset gen8_surface_state_t k + 4 * 2) gen8_ss2 0)
        (loadField heap_bdw (surfaceOffset gen8_surface_state_t k + 4 * 2) gen8_ss2 2)
        (loadField heap_bdw (surfaceOffset gen8_surface_state_t k + 4 * 3) gen8_ss3 3) = 256 ∧
      loadField heap_hsw (surfaceOffset gen7_surface_state_t k + 4 * 2) gen7_ss2 0 =
        (256 - 1) % 2 ^ 7 ∧
      loadField heap_hsw (surfaceOffset gen7_surface_state_t k + 4 * 2) gen7_ss2 2 =
        ((256 - 1) / 2 ^ 7) % 2 ^ 14 ∧
      loadField heap_hsw (surfaceOffset gen7_surface_state_t k + 4 * 3) gen7_ss3 2 =
        (256 - 1) / 2 ^ 21 ∧
      bufferSurfaceSize
        (loadField heap_hsw (surfaceOffset gen7_surface_state_t k + 4 * 2) gen7_ss2 0)
        (loadField heap_hsw (surfaceOffset gen7_surface_state_t k + 4 * 2) gen7_ss2 2)
        (loadField heap_hsw (surfaceOffset gen7_surface_state_t k + 4 * 3) gen7_ss3 2) = 256) ∧
    ((256 - 1) % 2 ^ 7 = 127 ∧ ((256 - 1) / 2 ^ 7) % 2 ^ 14 = 1 ∧ (256 - 1) / 2 ^ 21 = 0) ∧
    (((relocsOf main_bdw).take 2).map (fun r => r.target_bo) = [.input_buffer, .output_buffer] ∧
      allocSizes main_bdw .input_buffer = [256] ∧
      allocSizes main_bdw .output_buffer = [256] ∧
      uploads main_bdw .input_buffer = [(0, 256)] ∧
      readbacks main_bdw .output_buffer = [(0, 256)]) ∧
    (((relocsOf main_hsw).take 2).map (fun r => r.target_bo) = [.input_buffer, .output_buffer] ∧
      allocSizes main_hsw .input_buffer = [256] ∧
      allocSizes main_hsw .output_buffer = [256] ∧
      uploads main_hsw .input_buffer = [(0, 256)] ∧
      readbacks main_hsw .output_buffer = [(0, 256)]) ∧
    64 * sizeof_int = 256 ∧ Staging.size .input_data = 256 ∧
    (∀ i, i < 64 → load32 input_data (sizeof_int * i) = i) := by
  refine ⟨?_, by decide, by decide, by decide, by decide, by decide, by decide⟩
  rintro k (rfl | rfl) <;> decide

/-- Witness for C8: surface record 2 of the BDW heap has width field
(256 - 1) mod 2^7. -/
theorem C8_surface_sizes_witness :
    loadField heap_bdw (surfaceOffset gen8_surface_state_t 2 + 4 * 2) gen8_ss2 0 =
      (256 - 1) % 2 ^ 7 :=
  (C8_surface_sizes.1 2 (Or.inl rfl)).1


/-! ### C9: CURBE image -/

theorem load32_foldl_miss {α : Type} (step : Mem → α → Mem) (a : Nat) (xs : List α)
    (h : ∀ x ∈ xs, ∀ m : Mem, load32 (step m x) a = load32 m a) (m : Mem) :
    load32 (xs.foldl step m) a = load32 m a := by
  induction xs generalizing m with
  | nil => rfl
  | cons x xs ih =>
    rw [List.foldl_cons, ih (fun y hy => h y (List.mem_cons_of_mem x hy)),
      h x (List.mem_cons_self x xs)]

theorem load32_foldl_hit {α : Type} (step : Mem → α → Mem) (a v : Nat) (xs : List α)
    (x0 : α) (hx0 : x0 ∈ xs) (hhit : ∀ m : Mem, load32 (step m x0) a = v)
    (hmiss : ∀ x ∈ xs, x ≠ x0 → ∀ m : Mem, load32 (step m x) a = load32 m a) (m : Mem) :
    load32 (xs.foldl step m) a = v := by
  induction xs generalizing m with
  | nil => exact absurd hx0 (List.not_mem_nil x0)
  | cons x xs ih =>
    rw [List.foldl_cons]
    by_cases hmem : x0 ∈ xs
    · exact ih hmem (fun y hy => hmiss y (List.mem_cons_of_mem x hy)) _
    · have hx : x = x0 := by
        rcases List.mem_cons.1 hx0 with h | h
        · exact h.symm
        · exact absurd h hmem
      subst hx
      rw [load32_foldl_miss step a xs
        (fun y hy m1 => hmiss y (List.mem_cons_of_mem x hy)
          (fun hyx => hmem (hyx ▸ hy)) m1)]
      exact hhit m

theorem setup_curb0_local_id (data i j : Nat) (m : Mem) (hi : i < 4) (hj : j < 16) :
    load32 (setup_curb0 data m) (data + 4 * (64 * i + 8 + j)) = 16 * i + j := by
  unfold setup_curb0
  apply load32_foldl_hit _ _ _ _ i (List.mem_range.2 hi)
  · intro m1
    apply load32_foldl_hit _ _ _ _ j (List.mem_range.2 hj)
    · intro m2
      have e : data + 4 * (i * 64 + 8 + j) = data + 4 * (64 * i + 8 + j) := by omega
      rw [e, load32_store32_same]
      omega
    · intro j1 hj1 hne m2
      have := List.mem_range.1 hj1
      exact load32_store32_other _ _ _ _ (by omega)
  · intro i1 hi1 hne m1
    apply load32_foldl_miss
    intro j1 hj1 m2
    have := List.mem_range.1 hj1
    exact load32_store32_other _ _ _ _ (by omega)

theorem setup_curb0_other (data k : Nat) (m : Mem) (hk : ¬ isLocalIdWord k) :
    load32 (setup_curb0 data m) (data + 4 * k) = load32 m (data + 4 * k) := by
  unfold setup_curb0
  apply load32_foldl_miss
  intro i hi m1
  apply load32_foldl_miss
  intro j hj m2
  have hi4 := List.mem_range.1 hi
  have hj16 := List.mem_range.1 hj
  have hne : k ≠ 64 * i + 8 + j := fun h => hk ⟨i, j, hi4, hj16, h⟩
  exact load32_store32_other _ _ _ _ (by omega)

theorem setup_curb_local_id (data i j : Nat) (m : Mem) (hi : i < 4) (hj : j < 16) :
    load32 (setup_curb data m) (data + 4 * (64 * i + 8 + j)) = 16 * i + j := by
  unfold setup_curb
  apply load32_foldl_hit _ _ _ _ i (List.mem_range.2 hi)
  · intro m1
    show load32 (store32 _ _ _) _ = _
    rw [load32_store32_other _ _ _ _ (by omega)]
    apply load32_foldl_hit _ _ _ _ j (List.mem_range.2 hj)
    · intro m2
      have e : data + 4 * (i * 64 + 8 + j) = data + 4 * (64 * i + 8 + j) := by omega
      rw [e, load32_store32_same]
      omega
    · intro j1 hj1 hne m2
      have := List.mem_range.1 hj1
      exact load32_store32_other _ _ _ _ (by omega)
  · intro i1 hi1 hne m1
    have := List.mem_range.1 hi1
    show load32 (store32 _ _ _) _ = _
    rw [load32_store32_other _ _ _ _ (by omega)]
    apply load32_foldl_miss
    intro j1 hj1 m2
    have := List.mem_range.1 hj1
    exact load32_store32_other _ _ _ _ (by omega)

theorem setup_curb_count (data i : Nat) (m : Mem) (hi : i < 4) :
    load32 (setup_curb data m) (data + 4 * (64 * i + 60)) = 64 := by
  unfold setup_curb
  apply load32_foldl_hit _ _ _ _ i (List.mem_range.2 hi)
  · intro m1
    show load32 (store32 _ _ _) _ = _
    have e : data + 4 * (i * 64 + 60) = data + 4 * (64 * i + 60) := by omega
    rw [e, load32_store32_same]
    norm_num
  · intro i1 hi1 hne m1
    have := List.mem_range.1 hi1
    show load32 (store32 _ _ _) _ = _
    rw [load32_store32_other _ _ _ _ (by omega)]
    apply load32_foldl_miss
    intro j1 hj1 m2
    have := List.mem_range.1 hj1
    exact load32_store32_other _ _ _ _ (by omega)

theorem setup_curb_other (data k : Nat) (m : Mem) (hk : ¬ isLocalIdWord k)
    (hc : ¬ isCountWord k) :
    load32 (setup_curb data m) (data + 4 * k) = load32 m (data + 4 * k) := by
  unfold setup_curb
  apply load32_foldl_miss
  intro i hi m1
  have hi4 := List.mem_range.1 hi
  have hne60 : k ≠ 64 * i + 60 := fun h => hc ⟨i, hi4, h⟩
  show load32 (store32 _ _ _) _ = _
  rw [load32_store32_other _ _ _ _ (by omega)]
  apply load32_foldl_miss
  intro j hj m2
  have hj16 := List.mem_range.1 hj
  have hne : k ≠ 64 * i + 8 + j := fun h => hk ⟨i, j, hi4, hj16, h⟩
  exact load32_store32_other _ _ _ _ (by omega)

theorem load32_zeroMem (a : Nat) : load32 zeroMem a = 0 := rfl

/-- Claim C9: applied to a zeroed CURBE segment at `data`, both builders put
16 * i + j in word 64 * i + 8 + j for every group i < 4 and lane j < 16, so
that value v < 64 sits at byte 256 * (v / 16) + 4 * (8 + v mod 16); on HSW
word 64 * i + 60 holds 64 for every i < 4, while on BDW that word stays
zero; and every other word is zero. -/
theorem C9_curbe_image (data : Nat) :
    (∀ i j, i < 4 → j < 16 →
      load32 (setup_curb0 data zeroMem) (data + 4 * (64 * i + 8 + j)) = 16 * i + j) ∧
    (∀ v, v < 64 →
      load32 (setup_curb0 data zeroMem) (data + (256 * (v / 16) + 4 * (8 + v % 16))) = v) ∧
    (∀ i, i < 4 → load32 (setup_curb0 data zeroMem) (data + 4 * (64 * i + 60)) = 0) ∧
    (∀ k, ¬ isLocalIdWord k → load32 (setup_curb0 data zeroMem) (data + 4 * k) = 0) ∧
    (∀ i j, i < 4 → j < 16 →
      load32 (setup_curb data zeroMem) (data + 4 * (64 * i + 8 + j)) = 16 * i + j) ∧
    (∀ v, v < 64 →
      load32 (setup_curb data zeroMem) (data + (256 * (v / 16) + 4 * (8 + v % 16))) = v) ∧
    (∀ i, i < 4 → load32 (setup_curb data zeroMem) (data + 4 * (64 * i + 60)) = 64) ∧
    (∀ k, ¬ isLocalIdWord k → ¬ isCountWord k →
      load32 (setup_curb data zeroMem) (data + 4 * k) = 0) := by
  refine ⟨fun i j hi hj => setup_curb0_local_id data i j _ hi hj, ?_, ?_,
    fun k hk => by rw [setup_curb0_other data k _ hk, load32_zeroMem],
    fun i j hi hj => setup_curb_local_id data i j _ hi hj, ?_,
    fun i hi => setup_curb_count data i _ hi,
    fun k hk hc => by rw [setup_curb_other data k _ hk hc, load32_zeroMem]⟩
  · intro v hv
    have e : data + (256 * (v / 16) + 4 * (8 + v % 16)) =
        data + 4 * (64 * (v / 16) + 8 + v % 16) := by omega
    rw [e, setup_curb0_local_id data (v / 16) (v % 16) _ (by omega) (by omega)]
    omega
  · intro i hi
    have hk : ¬ isLocalIdWord (64 * i + 60) := by
      rintro ⟨i1, j1, h1, h2, h3⟩
      omega
    rw [setup_curb0_other data _ _ hk, load32_zeroMem]
  · intro v hv
    have e : data + (256 * (v / 16) + 4 * (8 + v % 16)) =
        data + 4 * (64 * (v / 16) + 8 + v % 16) := by omega
    rw [e, setup_curb_local_id data (v / 16) (v % 16) _ (by omega) (by omega)]
    omega

/-- Witness for C9: group 1, lane 2 of the BDW image built at CURB_OFFSET. -/
theorem C9_curbe_image_witness :
    load32 (setup_curb0 CURB_OFFSET zeroMem) (CURB_OFFSET + 4 * (64 * 1 + 8 + 2)) = 16 * 1 + 2 :=
  (C9_curbe_image CURB_OFFSET).1 1 2 (by decide) (by decide)

/-! ### C10: segments of the state buffer -/

theorem setup_curb0_frame (data : Nat) (m : Mem) (b : Nat)
    (h : b < data + 32 ∨ data + 1024 ≤ b) : setup_curb0 data m b = m b := by
  unfold setup_curb0
  apply foldl_frame
  intro i hi m1
  apply foldl_frame
  intro j hj m2
  have hi4 := List.mem_range.1 hi
  have hj16 := List.mem_range.1 hj
  exact store32_frame _ _ _ _ (by omega)

theorem setup_curb_frame (data : Nat) (m : Mem) (b : Nat)
    (h : b < data + 32 ∨ data + 1024 ≤ b) : setup_curb data m b = m b := by
  unfold setup_curb
  apply foldl_frame
  intro i hi m1
  have hi4 := List.mem_range.1 hi
  show store32 _ _ _ b = m1 b
  rw [store32_frame _ _ _ _ (by omega)]
  apply foldl_frame
  intro j hj m2
  have hj16 := List.mem_range.1 hj
  exact store32_frame _ _ _ _ (by omega)

theorem store32_agree (lo : Nat) (m m1 : Mem) (x v : Nat)
    (h : ∀ b, lo ≤ b → m b = m1 b) : ∀ b, lo ≤ b → store32 m x v b = store32 m1 x v b := by
  intro b hb
  unfold store32
  rw [h b hb]

theorem storeField_agree (lo : Nat) (m m1 : Mem) (x : Nat) (ws : List Nat) (i v : Nat)
    (hx : lo ≤ x) (h : ∀ b, lo ≤ b → m b = m1 b) :
    ∀ b, lo ≤ b → storeField m x ws i v b = storeField m1 x ws i v b := by
  have hl : load32 m x = load32 m1 x := by
    unfold load32
    rw [h x hx, h (x + 1) (by omega), h (x + 2) (by omega), h (x + 3) (by omega)]
  unfold storeField
  rw [hl]
  exact store32_agree lo m m1 x _ h

theorem foldl_agree {α : Type} (lo : Nat) (step : Mem → α → Mem) (xs : List α)
    (hstep : ∀ x ∈ xs, ∀ m m1 : Mem, (∀ b, lo ≤ b → m b = m1 b) →
      ∀ b, lo ≤ b → step m x b = step m1 x b)
    (m m1 : Mem) (h : ∀ b, lo ≤ b → m b = m1 b) :
    ∀ b, lo ≤ b → xs.foldl step m b = xs.foldl step m1 b := by
  induction xs generalizing m m1 with
  | nil => exact h
  | cons x xs ih =>
    rw [List.foldl_cons, List.foldl_cons]
    exact ih (fun y hy => hstep y (List.mem_cons_of_mem x hy)) _ _
      (hstep x (List.mem_cons_self x xs) m m1 h)

theorem setup_curb0_agree (lo data : Nat) (m m1 : Mem) (h : ∀ b, lo ≤ b → m b = m1 b) :
    ∀ b, lo ≤ b → setup_curb0 data m b = setup_curb0 data m1 b := by
  unfold setup_curb0
  apply foldl_agree lo _ _ _ m m1 h
  intro i _ m2 m3 h23
  apply foldl_agree lo _ _ _ m2 m3 h23
  intro j _ m4 m5 h45
  exact store32_agree lo m4 m5 _ _ h45

theorem setup_curb_agree (lo data : Nat) (m m1 : Mem) (h : ∀ b, lo ≤ b → m b = m1 b) :
    ∀ b, lo ≤ b → setup_curb data m b = setup_curb data m1 b := by
  unfold setup_curb
  apply foldl_agree lo _ _ _ m m1 h
  intro i _ m2 m3 h23
  apply store32_agree lo
  apply foldl_agree lo _ _ _ m2 m3 h23
  intro j _ m4 m5 h45
  exact store32_agree lo m4 m5 _ _ h45

theorem setup_idrt0_agree (lo data : Nat) (m m1 : Mem) (hd : lo ≤ data)
    (h : ∀ b, lo ≤ b → m b = m1 b) :
    ∀ b, lo ≤ b → setup_idrt0 data m b = setup_idrt0 data m1 b := by
  unfold setup_idrt0
  apply storeField_agree lo _ _ _ _ _ _ (by unfold unitAddr; omega)
  exact storeField_agree lo _ _ _ _ _ _ (by unfold unitAddr; omega) h

theorem setup_idrt_agree (lo data : Nat) (m m1 : Mem) (hd : lo ≤ data)
    (h : ∀ b, lo ≤ b → m b = m1 b) :
    ∀ b, lo ≤ b → setup_idrt data m b = setup_idrt data m1 b := by
  unfold setup_idrt
  apply storeField_agree lo _ _ _ _ _ _ (by unfold unitAddr; omega)
  exact storeField_agree lo _ _ _ _ _ _ (by unfold unitAddr; omega) h

theorem setup_heap0_frame (data : Nat) (m : Mem) (b : Nat)
    (h : b < data + 8 ∨ data + 1280 ≤ b) : setup_heap0 data m b = m b := by
  have hs : sizeofWords gen8_surface_state_t = 64 := by decide
  simp only [setup_heap0, unitAddr, hs]
  repeat rw [storeField_frame _ _ _ _ _ _ (by omega)]
  repeat rw [store32_frame _ _ _ _ (by omega)]

theorem setup_heap_frame (data : Nat) (m : Mem) (b : Nat)
    (h : b < data + 8 ∨ data + 1152 ≤ b) : setup_heap data m b = m b := by
  have hs : sizeofWords gen7_surface_state_t = 32 := by decide
  simp only [setup_heap, unitAddr, hs]
  repeat rw [storeField_frame _ _ _ _ _ _ (by omega)]
  repeat rw [store32_frame _ _ _ _ (by omega)]

theorem setup_idrt0_frame (data : Nat) (m : Mem) (b : Nat)
    (h : b < data + 20 ∨ data + 28 ≤ b) : setup_idrt0 data m b = m b := by
  have hs : sizeofWords gen8_interface_descriptor_t = 32 := by decide
  simp only [setup_idrt0, unitAddr, hs]
  repeat rw [storeField_frame _ _ _ _ _ _ (by omega)]

theorem setup_idrt_frame (data : Nat) (m : Mem) (b : Nat)
    (h : b < data + 16 ∨ data + 24 ≤ b) : setup_idrt data m b = m b := by
  have hs : sizeofWords gen6_interface_descriptor_t = 32 := by decide
  simp only [setup_idrt, unitAddr, hs]
  repeat rw [storeField_frame _ _ _ _ _ _ (by omega)]

set_option maxRecDepth 1000000 in
theorem state_uploads :
    uploads main_bdw .state_buffer = [(0, 36864)] ∧
    uploads main_hsw .state_buffer = [(0, 36864)] ∧
    Staging.size .state_data = 40960 := by
  decide

/-- Claim C10: in both programs the heap, CURBE and descriptor builders are
applied at offsets 0, CURB_OFFSET = 0x4400 and IDRT_OFFSET = 0x8400 of the
state array; whatever the array held, a byte changed by the heap builder
lies in [0, 0x4400), one changed by the CURBE builder in [0x4400, 0x8400)
and one changed by the descriptor builder in [0x8400, 0x8420), so in the
uploaded image each segment is exactly what its own builder wrote; the
three ranges are disjoint and lie inside the 36864 bytes uploaded, which lie
inside the 40960-byte staging array. -/
theorem C10_segments (m : Mem) (a : Nat) :
    (CURB_OFFSET = 0x4400 ∧ IDRT_OFFSET = 0x8400) ∧
    ((setup_heap0 0 m a ≠ m a → a < 0x4400) ∧
      (setup_curb0 CURB_OFFSET m a ≠ m a → 0x4400 ≤ a ∧ a < 0x8400) ∧
      (setup_idrt0 IDRT_OFFSET m a ≠ m a → 0x8400 ≤ a ∧ a < 0x8420)) ∧
    ((setup_heap 0 m a ≠ m a → a < 0x4400) ∧
      (setup_curb CURB_OFFSET m a ≠ m a → 0x4400 ≤ a ∧ a < 0x8400) ∧
      (setup_idrt IDRT_OFFSET m a ≠ m a → 0x8400 ≤ a ∧ a < 0x8420)) ∧
    ((a < 0x4400 → state_data_bdw a = setup_heap0 0 zeroMem a) ∧
      (0x4400 ≤ a → a < 0x8400 → state_data_bdw a = setup_curb0 CURB_OFFSET zeroMem a) ∧
      (0x8400 ≤ a → state_data_bdw a = setup_idrt0 IDRT_OFFSET zeroMem a)) ∧
    ((a < 0x4400 → state_data_hsw a = setup_heap 0 zeroMem a) ∧
      (0x4400 ≤ a → a < 0x8400 → state_data_hsw a = setup_curb CURB_OFFSET zeroMem a) ∧
      (0x8400 ≤ a → state_data_hsw a = setup_idrt IDRT_OFFSET zeroMem a)) ∧
    (0x8420 ≤ 36864 ∧
      uploads main_bdw .state_buffer = [(0, 36864)] ∧
      uploads main_hsw .state_buffer = [(0, 36864)] ∧
      36864 ≤ Staging.size .state_data ∧ Staging.size .state_data = 40960) := by
  have hc : CURB_OFFSET = 0x4400 := rfl
  have hi : IDRT_OFFSET = 0x8400 := rfl
  refine ⟨⟨hc, hi⟩, ⟨?_, ?_, ?_⟩, ⟨?_, ?_, ?_⟩, ⟨?_, ?_, ?_⟩, ⟨?_, ?_, ?_⟩,
    ⟨by norm_num, state_uploads.1, state_uploads.2.1, by rw [state_uploads.2.2]; norm_num,
      state_uploads.2.2⟩⟩
  · intro h
    by_contra hlt
    exact h (setup_heap0_frame 0 m a (by omega))
  · intro h
    by_contra hlt
    exact h (setup_curb0_frame CURB_OFFSET m a (by rw [hc]; omega))
  · intro h
    by_contra hlt
    exact h (setup_idrt0_frame IDRT_OFFSET m a (by rw [hi]; omega))
  · intro h
    by_contra hlt
    exact h (setup_heap_frame 0 m a (by omega))
  · intro h
    by_contra hlt
    exact h (setup_curb_frame CURB_OFFSET m a (by rw [hc]; omega))
  · intro h
    by_contra hlt
    exact h (setup_idrt_frame IDRT_OFFSET m a (by rw [hi]; omega))
  · intro h
    unfold state_data_bdw
    rw [setup_idrt0_frame _ _ _ (by rw [hi]; omega),
      setup_curb0_frame _ _ _ (by rw [hc]; omega)]
  · intro h1 h2
    unfold state_data_bdw
    rw [setup_idrt0_frame _ _ _ (by rw [hi]; omega)]
    exact setup_curb0_agree 0x4400 _ _ _
      (fun b hb => setup_heap0_frame 0 zeroMem b (by omega)) a h1
  · intro h1
    unfold state_data_bdw
    refine setup_idrt0_agree 0x8400 _ _ _ (by rw [hi]) (fun b hb => ?_) a h1
    rw [setup_curb0_frame _ _ _ (by rw [hc]; omega), setup_heap0_frame _ _ _ (by omega)]
  · intro h
    unfold state_data_hsw
    rw [setup_idrt_frame _ _ _ (by rw [hi]; omega),
      setup_curb_frame _ _ _ (by rw [hc]; omega)]
  · intro h1 h2
    unfold state_data_hsw
    rw [setup_idrt_frame _ _ _ (by rw [hi]; omega)]
    exact setup_curb_agree 0x4400 _ _ _
      (fun b hb => setup_heap_frame 0 zeroMem b (by omega)) a h1
  · intro h1
    unfold state_data_hsw
    refine setup_idrt_agree 0x8400 _ _ _ (by rw [hi]) (fun b hb => ?_) a h1
    rw [setup_curb_frame _ _ _ (by rw [hc]; omega), setup_heap_frame _ _ _ (by omega)]

set_option maxRecDepth 1000000 in
/-- Witness for C10: byte 8 of the state array (low byte of binding_table[2])
is changed by the BDW heap builder and lies below 0x4400. -/
theorem C10_segments_witness : setup_heap0 0 zeroMem 8 ≠ zeroMem 8 ∧ 8 < 0x4400 :=
  ⟨by decide, (C10_segments zeroMem 8).2.1.1 (by decide)⟩


/-! ### C11: CURBE and descriptor loads -/

theorem setup_curb0_eq_stores (data : Nat) (m : Mem) :
    setup_curb0 data m = applyStores (local_id_stores data) m := rfl

theorem setup_curb_eq_stores (data : Nat) (m : Mem) :
    setup_curb data m = applyStores (curb_stores_hsw data) m := rfl

set_option maxRecDepth 1000000 in
theorem curbe_load_operands :
    (operands3 setup_batch0 CMD_MEDIA_CURBE_LOAD = [(0, 0x4000, 0x4400)] ∧
      operands3 setup_batch0 CMD_MEDIA_INTERFACE_DESCRIPTOR_LOAD = [(0, 0x20, 0x8400)] ∧
      (positionsOf setup_batch0 CMD_MEDIA_CURBE_LOAD).map
        (fun p => commandWords (setup_batch0.getD p 0)) = [4] ∧
      (positionsOf setup_batch0 CMD_MEDIA_INTERFACE_DESCRIPTOR_LOAD).map
        (fun p => commandWords (setup_batch0.getD p 0)) = [4]) ∧
    (operands3 setup_batch CMD_MEDIA_CURBE_LOAD = [(0, 0x4000, 0x4400)] ∧
      operands3 setup_batch CMD_MEDIA_INTERFACE_DESCRIPTOR_LOAD = [(0, 0x20, 0x8400)] ∧
      (positionsOf setup_batch CMD_MEDIA_CURBE_LOAD).map
        (fun p => commandWords (setup_batch.getD p 0)) = [4] ∧
      (positionsOf setup_batch CMD_MEDIA_INTERFACE_DESCRIPTOR_LOAD).map
        (fun p => commandWords (setup_batch.getD p 0)) = [4]) ∧
    (0x4400 = CURB_OFFSET ∧ 0x4000 = IDRT_OFFSET - CURB_OFFSET ∧ 0x8400 = IDRT_OFFSET ∧
      4 * 256 = 1024 ∧ 1024 ≤ IDRT_OFFSET - CURB_OFFSET) ∧
    (0x20 = sizeofWords gen8_interface_descriptor_t ∧ gen8_interface_descriptor_t.length = 8 ∧
      0x20 = sizeofWords gen6_interface_descriptor_t ∧ gen6_interface_descriptor_t.length = 8) := by
  decide

/-- Claim C11: in both streams MEDIA_CURBE_LOAD has the operands
(0, 0x4000, 0x4400), its address operand being CURB_OFFSET and its length
operand IDRT_OFFSET - CURB_OFFSET, which covers the 4 * 256 = 1024 bytes
outside of which the CURBE builder changes nothing; and
MEDIA_INTERFACE_DESCRIPTOR_LOAD has the operands (0, 0x20, 0x8400), its
address operand being IDRT_OFFSET and its length operand the size of one
interface descriptor of 8 words. -/
theorem C11_curbe_and_descriptor_load :
    (operands3 setup_batch0 CMD_MEDIA_CURBE_LOAD = [(0, 0x4000, 0x4400)] ∧
      operands3 setup_batch0 CMD_MEDIA_INTERFACE_DESCRIPTOR_LOAD = [(0, 0x20, 0x8400)] ∧
      (positionsOf setup_batch0 CMD_MEDIA_CURBE_LOAD).map
        (fun p => commandWords (setup_batch0.getD p 0)) = [4] ∧
      (positionsOf setup_batch0 CMD_MEDIA_INTERFACE_DESCRIPTOR_LOAD).map
        (fun p => commandWords (setup_batch0.getD p 0)) = [4]) ∧
    (operands3 setup_batch CMD_MEDIA_CURBE_LOAD = [(0, 0x4000, 0x4400)] ∧
      operands3 setup_batch CMD_MEDIA_INTERFACE_DESCRIPTOR_LOAD = [(0, 0x20, 0x8400)] ∧
      (positionsOf setup_batch CMD_MEDIA_CURBE_LOAD).map
        (fun p => commandWords (setup_batch.getD p 0)) = [4] ∧
      (positionsOf setup_batch CMD_MEDIA_INTERFACE_DESCRIPTOR_LOAD).map
        (fun p => commandWords (setup_batch.getD p 0)) = [4]) ∧
    (0x4400 = CURB_OFFSET ∧ 0x4000 = IDRT_OFFSET - CURB_OFFSET ∧ 0x8400 = IDRT_OFFSET ∧
      4 * 256 = 1024 ∧ 1024 ≤ IDRT_OFFSET - CURB_OFFSET) ∧
    (0x20 = sizeofWords gen8_interface_descriptor_t ∧ gen8_interface_descriptor_t.length = 8 ∧
      0x20 = sizeofWords gen6_interface_descriptor_t ∧ gen6_interface_descriptor_t.length = 8) ∧
    (∀ (m : Mem) (b : Nat), setup_curb0 CURB_OFFSET m b ≠ m b →
      CURB_OFFSET ≤ b ∧ b < CURB_OFFSET + 1024) ∧
    (∀ (m : Mem) (b : Nat), setup_curb CURB_OFFSET m b ≠ m b →
      CURB_OFFSET ≤ b ∧ b < CURB_OFFSET + 1024) := by
  refine ⟨curbe_load_operands.1, curbe_load_operands.2.1, curbe_load_operands.2.2.1,
    curbe_load_operands.2.2.2, ?_, ?_⟩
  · intro m b h
    by_contra hlt
    exact h (setup_curb0_frame CURB_OFFSET m b (by omega))
  · intro m b h
    by_contra hlt
    exact h (setup_curb_frame CURB_OFFSET m b (by omega))

set_option maxRecDepth 1000000 in
/-- Witness for C11: the byte of the BDW CURBE image holding local ID 1 is
changed by the builder and lies in the first 1024 bytes of the segment. -/
theorem C11_curbe_and_descriptor_load_witness :
    setup_curb0 CURB_OFFSET zeroMem (CURB_OFFSET + 36) ≠ zeroMem (CURB_OFFSET + 36) ∧
    (CURB_OFFSET ≤ CURB_OFFSET + 36 ∧ CURB_OFFSET + 36 < CURB_OFFSET + 1024) :=
  ⟨by decide, C11_curbe_and_descriptor_load.2.2.2.2.1 zeroMem (CURB_OFFSET + 36) (by decide)⟩


/-! ### C12: GPGPU_WALKER -/

theorem setup_input_elem (data i : Nat) (m : Mem) (hi : i < 64) :
    load32 (setup_input data m) (data + 4 * i) = i := by
  unfold setup_input
  apply load32_foldl_hit _ _ _ _ i (List.mem_range.2 hi)
  · intro m1
    rw [load32_store32_same]
    omega
  · intro i1 hi1 hne m1
    exact load32_store32_other _ _ _ _ (by omega)

theorem input_word_eq (i : Nat) (hi : i < 64) : input_word i = i := by
  have h := setup_input_elem 0 i zeroMem hi
  unfold input_word input_data sizeof_int
  rw [Nat.zero_add] at h
  exact h

set_option maxRecDepth 1000000 in
theorem walker_operands :
    (operandsAt setup_batch0 CMD_GPGPU_WALKER [7, 10, 12] = [[1, 1, 1]] ∧
      operandsAt setup_batch0 CMD_GPGPU_WALKER [5, 8, 11] = [[0, 0, 0]] ∧
      operandsAt setup_batch0 CMD_GPGPU_WALKER [4, 13, 14] =
        [[0x40000003, 0x0000FFFF, 0xFFFFFFFF]] ∧
      (positionsOf setup_batch0 CMD_GPGPU_WALKER).map
        (fun p => commandWords (setup_batch0.getD p 0)) = [15]) ∧
    (operandsAt setup_batch CMD_GPGPU_WALKER [4, 6, 8] = [[1, 1, 1]] ∧
      operandsAt setup_batch CMD_GPGPU_WALKER [3, 5, 7] = [[0, 0, 0]] ∧
      operandsAt setup_batch CMD_GPGPU_WALKER [2, 9, 10] =
        [[0x40000003, 0x0000FFFF, 0xFFFFFFFF]] ∧
      (positionsOf setup_batch CMD_GPGPU_WALKER).map
        (fun p => commandWords (setup_batch.getD p 0)) = [11]) ∧
    (getBits 0x40000003 30 2 = 1 ∧ getBits 0x40000003 0 6 = 3 ∧
      0x0000FFFF = 2 ^ 16 - 1 ∧ 0xFFFFFFFF = 2 ^ 32 - 1 ∧
      (getBits 0x40000003 0 6 + 1) * 16 = 64) ∧
    ((local_id_stores CURB_OFFSET).length = 64 ∧
      ((local_id_stores CURB_OFFSET).map (fun av => av.1)).Nodup ∧
      (local_id_stores CURB_OFFSET).map (fun av => av.2) = List.range 64 ∧
      ((curb_stores_hsw CURB_OFFSET).filter
        (fun av => decide (av ∈ local_id_stores CURB_OFFSET))).length = 64) ∧
    (uploads main_bdw .input_buffer = [(0, 64 * sizeof_int)] ∧
      uploads main_hsw .input_buffer = [(0, 64 * sizeof_int)]) ∧
    16 * loadField state_data_bdw (IDRT_OFFSET + 4 * 6) gen8_desc6 0 = 64 := by
  decide

/-- Claim C12: in both streams GPGPU_WALKER programs a 1x1x1 group grid with
zero starting group IDs (BDW operands 7, 10, 12 = 1 and 5, 8, 11 = 0; HSW
operands 4, 6, 8 = 1 and 3, 5, 7 = 0), right execution mask 0x0000FFFF,
bottom execution mask 0xFFFFFFFF and SIMD/thread word 0x40000003, i.e.
SIMD16 (bits 31:30 = 1) and thread-width maximum 3; so the dispatch covers
(3 + 1) * 16 = 64 work-items, as many as the input elements (input[i] = i
for i < 64, 64 ints uploaded), as the local-ID stores of the CURBE builders
(64 stores at distinct addresses, holding 0..63) and, on BDW, as
16 * group_threads_num. -/
theorem C12_walker_dispatch :

    (operandsAt setup_batch0 CMD_GPGPU_WALKER [7, 10, 12] = [[1, 1, 1]] ∧
      operandsAt setup_batch0 CMD_GPGPU_WALKER [5, 8, 11] = [[0, 0, 0]] ∧
      operandsAt setup_batch0 CMD_GPGPU_WALKER [4, 13, 14] =
        [[0x40000003, 0x0000FFFF, 0xFFFFFFFF]] ∧
      (positionsOf setup_batch0 CMD_GPGPU_WALKER).map
        (fun p => commandWords (setup_batch0.getD p 0)) = [15]) ∧
    (operandsAt setup_batch CMD_GPGPU_WALKER [4, 6, 8] = [[1, 1, 1]] ∧
      operandsAt setup_batch CMD_GPGPU_WALKER [3, 5, 7] = [[0, 0, 0]] ∧
      operandsAt setup_batch CMD_GPGPU_WALKER [2, 9, 10] =
        [[0x40000003, 0x0000FFFF, 0xFFFFFFFF]] ∧
      (positionsOf setup_batch CMD_GPGPU_WALKER).map
        (fun p => commandWords (setup_batch.getD p 0)) = [11]) ∧
    (getBits 0x40000003 30 2 = 1 ∧ getBits 0x40000003 0 6 = 3 ∧
      0x0000FFFF = 2 ^ 16 - 1 ∧ 0xFFFFFFFF = 2 ^ 32 - 1 ∧
      (getBits 0x40000003 0 6 + 1) * 16 = 64) ∧
    ((local_id_stores CURB_OFFSET).length = 64 ∧
      ((local_id_stores CURB_OFFSET).map (fun av => av.1)).Nodup ∧
      (local_id_stores CURB_OFFSET).map (fun av => av.2) = List.range 64 ∧
      ((curb_stores_hsw CURB_OFFSET).filter
        (fun av => decide (av ∈ local_id_stores CURB_OFFSET))).length = 64) ∧
    (uploads main_bdw .input_buffer = [(0, 64 * sizeof_int)] ∧
      uploads main_hsw .input_buffer = [(0, 64 * sizeof_int)]) ∧
    16 * loadField state_data_bdw (IDRT_OFFSET + 4 * 6) gen8_desc6 0 = 64 ∧
    (∀ i, i < 64 → input_word i = i) ∧
    (∀ m : Mem, setup_curb0 CURB_OFFSET m = applyStores (local_id_stores CURB_OFFSET) m) ∧
    (∀ m : Mem, setup_curb CURB_OFFSET m = applyStores (curb_stores_hsw CURB_OFFSET) m) :=
  ⟨walker_operands.1, walker_operands.2.1, walker_operands.2.2.1, walker_operands.2.2.2.1,
    walker_operands.2.2.2.2.1, walker_operands.2.2.2.2.2, input_word_eq,
    setup_curb0_eq_stores CURB_OFFSET, setup_curb_eq_stores CURB_OFFSET⟩

/-- Witness for C12: element 5 of the input array is 5. -/
theorem C12_walker_dispatch_witness : input_word 5 = 5 :=
  C12_walker_dispatch.2.2.2.2.2.2.1 5 (by decide)


/-! ### C13: kernel-start relocation -/

set_option maxRecDepth 1000000 in
/-- Counterexample to claim C13: the relocation list of the BDW program has
no entry whose source is the state buffer at IDRT_OFFSET and whose target is
the kernel buffer. -/
theorem C13_bdw_has_no_descriptor_relocation : ¬ bindsKernelStart main_bdw := by
  decide

set_option maxRecDepth 1000000 in
/-- Claim C13, amended: on HSW the only relocation whose target is the kernel
buffer has the state buffer at IDRT_OFFSET, the unit holding
kernel_start_pointer of descriptor 0, as its source; on BDW no relocation
has its source in the descriptor table, the only relocation whose target is
the kernel buffer has batch word 26, operand 10 of STATE_BASE_ADDRESS, as
its source, and kernel_start_pointer of descriptor 0 is left 0. -/
theorem C13_kernel_binding :
    (bindsKernelStart main_hsw ∧
      relocsTo main_hsw .kernel_buffer = [⟨.state_buffer, IDRT_OFFSET, .kernel_buffer, 0, 16, 0⟩] ∧
      unitAddr IDRT_OFFSET (sizeofWords gen6_interface_descriptor_t) 0 0 = IDRT_OFFSET ∧
      gen6_interface_descriptor_t.getD 0 [] = gen6_desc0) ∧
    ((relocsOf main_bdw).filter (fun r => r.bo = .state_buffer ∧ IDRT_OFFSET ≤ r.offset) = [] ∧
      relocsTo main_bdw .kernel_buffer =
        [⟨.batch_buffer, 26 * sizeof_uint32_t, .kernel_buffer, 1921, 16, 16⟩] ∧
      sbaOperandsBoundTo main_bdw setup_batch0 .kernel_buffer = [10] ∧
      positionsOf setup_batch0 CMD_STATE_BASE_ADDRESS = [16] ∧
      loadField state_data_bdw IDRT_OFFSET gen8_desc0 1 = 0 ∧
      loadField state_data_bdw (IDRT_OFFSET + 4) gen8_desc1 0 = 0) := by
  decide

/-! ### C14: STATE_BASE_ADDRESS relocations -/

set_option maxRecDepth 1000000 in
/-- Counterexample to claim C14: the claim needs four different operand
words of STATE_BASE_ADDRESS (general, surface, dynamic, instruction) to be
sources of relocations whose target is the state buffer; the BDW program
has only two such operand words and the HSW program only one. -/
theorem C14_fewer_than_four_state_bases :
    ¬ (4 ≤ (sbaOperandsBoundTo main_bdw setup_batch0 .state_buffer).length) ∧
    ¬ (4 ≤ (sbaOperandsBoundTo main_hsw setup_batch .state_buffer).length) := by
  decide

set_option maxRecDepth 1000000 in
/-- Claim C14, amended: in the BDW stream the relocations whose source is an
operand word of STATE_BASE_ADDRESS bind operands 4 and 6 (batch words 20 and
22) to the state buffer and operand 10 (word 26) to the kernel buffer, each
with target offset 1921; in the HSW stream the only such relocation binds
operand 2 (word 38) to the state buffer with target offset 1361; no other
operand of STATE_BASE_ADDRESS has a relocation. -/
theorem C14_state_base_relocations :
    (positionsOf setup_batch0 CMD_STATE_BASE_ADDRESS = [16] ∧
      sbaOperandsBoundTo main_bdw setup_batch0 .state_buffer = [4, 6] ∧
      sbaOperandsBoundTo main_bdw setup_batch0 .kernel_buffer = [10] ∧
      sbaOperandsBoundTo main_bdw setup_batch0 .input_buffer = [] ∧
      sbaOperandsBoundTo main_bdw setup_batch0 .output_buffer = [] ∧
      sbaOperandsBoundTo main_bdw setup_batch0 .batch_buffer = [] ∧
      (relocsOf main_bdw).filter (fun r => r.bo = .batch_buffer) =
        [ ⟨.batch_buffer, 4 * (16 + 4), .state_buffer, 1921, 4, 4⟩,
          ⟨.batch_buffer, 4 * (16 + 6), .state_buffer, 1921, 2, 2⟩,
          ⟨.batch_buffer, 4 * (16 + 10), .kernel_buffer, 1921, 16, 16⟩ ]) ∧
    (positionsOf setup_batch CMD_STATE_BASE_ADDRESS = [36] ∧
      sbaOperandsBoundTo main_hsw setup_batch .state_buffer = [2] ∧
      sbaOperandsBoundTo main_hsw setup_batch .kernel_buffer = [] ∧
      sbaOperandsBoundTo main_hsw setup_batch .input_buffer = [] ∧
      sbaOperandsBoundTo main_hsw setup_batch .output_buffer = [] ∧
      sbaOperandsBoundTo main_hsw setup_batch .batch_buffer = [] ∧
      (relocsOf main_hsw).filter
          (fun r => r.bo = .batch_buffer ∧ isSbaOperand setup_batch r.offset) =
        [ ⟨.batch_buffer, 4 * (36 + 2), .state_buffer, 1361, 16, 16⟩ ]) := by
  decide

/-! ### C15: what the relocations patch -/

set_option maxRecDepth 1000000 in
/-- Counterexample to claim C16: word 72 of the BDW stream is neither a
command header nor an operand accounted for by a header, and it is zero, not
BATCH_BUFFER_END. -/
theorem C16_padding_word_is_zero :
    72 ∈ paddingPositions setup_batch0 ∧ setup_batch0.getD 72 0 = 0 ∧
    setup_batch0.getD 72 0 ≠ CMD_BATCH_BUFFER_END ∧
    ¬ paddedWithTerminators setup_batch0 := by
  decide

set_option maxRecDepth 1000000 in
/-- Claim C16, amended: alignment padding is one all-zero word before the
terminator: in each stream the only word that is neither a command header
nor an operand accounted for by a header's length field is a zero word
directly before the final BATCH_BUFFER_END (word 72 of 74 on BDW, word 110
of 112 on HSW), it makes the word count even, and BATCH_BUFFER_END occurs
exactly once, as the last word. -/
theorem C16_padding_is_zero_word :
    (paddingPositions setup_batch0 = [72] ∧ setup_batch0.getD 72 0 = 0 ∧
      setup_batch0.getD 73 0 = CMD_BATCH_BUFFER_END ∧ setup_batch0.length = 74 ∧
      74 % 2 = 0 ∧ rawCount setup_batch0 CMD_BATCH_BUFFER_END = 1 ∧
      setup_batch0.count CMD_BATCH_BUFFER_END = 1) ∧
    (paddingPositions setup_batch = [110] ∧ setup_batch.getD 110 0 = 0 ∧
      setup_batch.getD 111 0 = CMD_BATCH_BUFFER_END ∧ setup_batch.length = 112 ∧
      112 % 2 = 0 ∧ rawCount setup_batch CMD_BATCH_BUFFER_END = 1 ∧
      setup_batch.count CMD_BATCH_BUFFER_END = 1) := by
  decide

/-! ### C17: order of command kinds -/

set_option maxRecDepth 1000000 in
/-- Counterexample to claim C17: in neither stream is the collapsed sequence
of command kinds the order of the specification, whether the zero padding
word is counted as a kind or left out. -/
theorem C17_order_differs :
    collapse (commandKinds setup_batch0) ≠ specOrder ∧
    collapse ((commandKinds setup_batch0).filter (fun k => k != 0)) ≠ specOrder ∧
    collapse (commandKinds setup_batch) ≠ specOrder ∧
    collapse ((commandKinds setup_batch).filter (fun k => k != 0)) ≠ specOrder := by
  decide

set_option maxRecDepth 1000000 in
/-- Claim C17, amended: with consecutive repeats collapsed and the zero
padding word left out, the command kinds of the BDW stream are PIPE_CONTROL,
LOAD_REGISTER_IMM, PIPE_CONTROL, PIPELINE_SELECT, STATE_BASE_ADDRESS,
MEDIA_STATE_POINTERS, MEDIA_CURBE_LOAD, MEDIA_INTERFACE_DESCRIPTOR_LOAD,
GPGPU_WALKER, MEDIA_STATE_FLUSH, PIPE_CONTROL, BATCH_BUFFER_END, and those of
the HSW stream are the same with LOAD_REGISTER_IMM, PIPE_CONTROL once more
before BATCH_BUFFER_END; the only other word at a command boundary is the
zero word before the terminator. -/
theorem C17_command_kinds :
    (collapse ((commandKinds setup_batch0).filter (fun k => k != 0)) =
        [ CMD_PIPE_CONTROL, CMD_LOAD_REGISTER_IMM, CMD_PIPE_CONTROL, CMD_PIPELINE_SELECT,
          CMD_STATE_BASE_ADDRESS, CMD_MEDIA_STATE_POINTERS, CMD_MEDIA_CURBE_LOAD,
          CMD_MEDIA_INTERFACE_DESCRIPTOR_LOAD, CMD_GPGPU_WALKER, CMD_MEDIA_STATE_FLUSH,
          CMD_PIPE_CONTROL, CMD_BATCH_BUFFER_END ] ∧
      (headerPositions setup_batch0).filter (fun p => setup_batch0.getD p 0 == 0) = [72] ∧
      (commandKinds setup_batch0).length = 13) ∧
    (collapse ((commandKinds setup_batch).filter (fun k => k != 0)) =
        [ CMD_PIPE_CONTROL, CMD_LOAD_REGISTER_IMM, CMD_PIPE_CONTROL, CMD_PIPELINE_SELECT,
          CMD_STATE_BASE_ADDRESS, CMD_MEDIA_STATE_POINTERS, CMD_MEDIA_CURBE_LOAD,
          CMD_MEDIA_INTERFACE_DESCRIPTOR_LOAD, CMD_GPGPU_WALKER, CMD_MEDIA_STATE_FLUSH,
          CMD_PIPE_CONTROL, CMD_LOAD_REGISTER_IMM, CMD_PIPE_CONTROL, CMD_BATCH_BUFFER_END ] ∧
      (headerPositions setup_batch).filter (fun p => setup_batch.getD p 0 == 0) = [110] ∧
      (commandKinds setup_batch).length = 27) := by
  decide


/-! ### C18: result check -/

theorem foldl_count (p : Nat → Prop) [DecidablePred p] (l : List Nat) (c : Nat) :
    l.foldl (fun correct i => if p i then correct + 1 else correct) c =
      c + (l.filter (fun i => decide (p i))).length := by
  induction l generalizing c with
  | nil => simp
  | cons x xs ih =>
    rw [List.foldl_cons, ih]
    by_cases hx : p x
    · simp [hx, List.filter_cons]
      omega
    · simp [hx, List.filter_cons]

theorem input_int_eq (i : Nat) (hi : i < 64) : input_int i = (i : Int) := by
  unfold input_int toInt32
  rw [input_word_eq i hi]
  have h1 : i % 2 ^ 32 = i := Nat.mod_eq_of_lt (by omega)
  rw [h1, if_pos (by omega)]

theorem foldl_assign_miss (l : List Nat) (d : Nat → Int) (i : Nat) (hi : i ∉ l) :
    (l.foldl (fun (data : Nat → Int) (j : Nat) =>
      fun (k : Nat) => if k = j then (j : Int) else data k) d) i = d i := by
  induction l generalizing d with
  | nil => rfl
  | cons x xs ih =>
    rw [List.foldl_cons, ih _ (fun h => hi (List.mem_cons_of_mem x h))]
    have hne : i ≠ x := fun h => hi (h ▸ List.mem_cons_self x xs)
    simp [hne]

theorem foldl_assign_hit (l : List Nat) (d : Nat → Int) (i : Nat) (hi : i ∈ l) :
    (l.foldl (fun (data : Nat → Int) (j : Nat) =>
      fun (k : Nat) => if k = j then (j : Int) else data k) d) i = (i : Int) := by
  induction l generalizing d with
  | nil => exact absurd hi (List.not_mem_nil i)
  | cons x xs ih =>
    rw [List.foldl_cons]
    by_cases hmem : i ∈ xs
    · exact ih _ hmem
    · have hx : i = x := by
        rcases List.mem_cons.1 hi with h | h
        · exact h
        · exact absurd h hmem
      rw [foldl_assign_miss xs _ i hmem]
      simp [hx]

theorem opencl_setup_data_eq (d0 : Nat → Int) (i : Nat) (hi : i < 64) :
    opencl_setup_data d0 i = (i : Int) := by
  unfold opencl_setup_data
  exact foldl_assign_hit _ d0 i (List.mem_range.2 hi)

theorem count_eq_filter (input output : Nat → Int) :
    count_correct_bdw input output =
      ((List.range 64).filter (fun i => decide (output i = input i + input i))).length := by
  unfold count_correct_bdw
  rw [foldl_count (fun i => output i = input i + input i)]
  omega

theorem count_eq_64_iff (input output : Nat → Int) :
    count_correct_bdw input output = 64 ↔
      ∀ i, i < 64 → output i = input i + input i := by
  rw [count_eq_filter]
  have h := List.filter_length_eq_length
    (p := fun i => decide (output i = input i + input i)) (l := List.range 64)
  rw [List.length_range] at h
  rw [h]
  constructor
  · intro hall i hi
    simpa using hall i (List.mem_range.2 hi)
  · intro hall i hi
    simpa using hall i (List.mem_range.1 hi)

theorem count_congr (input input1 output : Nat → Int)
    (h : ∀ i, i < 64 → input i = input1 i) :
    count_correct_bdw input output = count_correct_bdw input1 output := by
  rw [count_eq_filter, count_eq_filter]
  congr 1
  apply List.filter_congr
  intro i hi
  rw [h i (List.mem_range.1 hi)]

/-- Claim C18: with input[i] = i for i < 64 as built by setup_input (and
data[i] = i in the OpenCL program), for every read-back array o the count
reported by the BDW program is the number of indices i < 64 with
o[i] = input[i] + input[i], a sum that stays below 2^31; the count is 64 if
and only if o[i] = 2 * i for every i < 64; and the HSW and OpenCL programs
report the same count. -/
theorem C18_result_check (o d0 : Nat → Int) :
    (∀ i, i < 64 → input_int i = (i : Int)) ∧
    (∀ i, i < 64 → opencl_setup_data d0 i = (i : Int)) ∧
    (∀ i, i < 64 → 0 ≤ input_int i + input_int i ∧ input_int i + input_int i < 2 ^ 31) ∧
    count_correct_bdw input_int o =
      ((List.range 64).filter (fun i => decide (o i = input_int i + input_int i))).length ∧
    (count_correct_bdw input_int o = 64 ↔ ∀ i, i < 64 → o i = 2 * (i : Int)) ∧
    count_correct_hsw input_int o = count_correct_bdw input_int o ∧
    count_correct_opencl (opencl_setup_data d0) o = count_correct_bdw input_int o := by
  refine ⟨input_int_eq, opencl_setup_data_eq d0, ?_, count_eq_filter _ _, ?_, rfl, ?_⟩
  · intro i hi
    rw [input_int_eq i hi]
    omega
  · rw [count_eq_64_iff]
    constructor
    · intro h i hi
      rw [h i hi, input_int_eq i hi]
      omega
    · intro h i hi
      rw [h i hi, input_int_eq i hi]
      omega
  · exact count_congr _ _ _ (fun i hi => by rw [opencl_setup_data_eq d0 i hi, input_int_eq i hi])

/-- Witness for C18: element 7 of the input array is 7, and an output array
with o[i] = 2 * i everywhere is reported as 64 correct values. -/
theorem C18_result_check_witness :
    input_int 7 = 7 ∧ count_correct_bdw input_int (fun i => 2 * (i : Int)) = 64 :=
  ⟨(C18_result_check (fun i => 2 * (i : Int)) (fun _ => 0)).1 7 (by decide),
    (C18_result_check (fun i => 2 * (i : Int)) (fun _ => 0)).2.2.2.2.1.2 (fun _ _ => rfl)⟩


/-! ### C19: error propagation -/

set_option maxRecDepth 1000000 in
/-- Claim C19 on the code: when the upload of the kernel (call 3, whose
status is stored in err) fails with -5 and every other call succeeds, main
of example_bdw.c and of example_hsw.c still returns 0, and err holds 0, the
status of the last call stored in it; main returns 0 whatever the external
calls return, so a failure is not propagated. -/
theorem C19_failure_not_propagated :
    (main_bdw[3]? = some (.bo_subdata .kernel_buffer 0 464 .kernel_data) ∧
      main_hsw[3]? = some (.bo_subdata .kernel_buffer 0 416 .kernel_data) ∧
      storesErr (.bo_subdata .kernel_buffer 0 464 .kernel_data) = true ∧
      ext_first_upload_fails 3 ≠ 0) ∧
    (run_main main_bdw ext_first_upload_fails = ⟨some 0, 0⟩ ∧
      run_main main_hsw ext_first_upload_fails = ⟨some 0, 0⟩) ∧
    (∀ ext : Nat → Int, (run_main main_bdw ext).ret = 0 ∧ (run_main main_hsw ext).ret = 0) ∧
    (¬ errorPropagated main_bdw ∧ ¬ errorPropagated main_hsw) := by
  refine ⟨by decide, by decide, fun _ => ⟨rfl, rfl⟩, ?_, ?_⟩
  · intro h
    exact h ext_first_upload_fails
      ⟨3, .bo_subdata .kernel_buffer 0 464 .kernel_data, by decide, by decide, by decide⟩ rfl
  · intro h
    exact h ext_first_upload_fails
      ⟨3, .bo_subdata .kernel_buffer 0 416 .kernel_data, by decide, by decide, by decide⟩ rfl

/-! ### C21: interface descriptor -/

set_option maxRecDepth 1000000 in
/-- Claim C21: applied to a zeroed 32-byte descriptor, setup_idrt0 (BDW)
leaves word 5 = 0x00080000 (CURBE read length 8, read offset 0) and word
6 = 0x00000004 (thread-group size 4), and setup_idrt (HSW) leaves word
4 = 0x00080000 and word 5 = 0x00010000 (shared-local-memory size 1); every
other word is zero, so kernel-start, sampler and binding-table pointers are
0; the same words are found at IDRT_OFFSET of the uploaded state array; and
8 registers * 32 bytes is 256, the byte stride between the local IDs of
consecutive groups in the CURBE builder. -/
theorem C21_interface_descriptor :
    (sizeofWords gen8_interface_descriptor_t = 32 ∧
      wordsOf idrt_bdw 0 8 = [0, 0, 0, 0, 0, 0x00080000, 0x00000004, 0] ∧
      loadField idrt_bdw (4 * 5) gen8_desc5 1 = 8 ∧
      loadField idrt_bdw (4 * 5) gen8_desc5 0 = 0 ∧
      loadField idrt_bdw (4 * 6) gen8_desc6 0 = 4 ∧
      loadField idrt_bdw (4 * 0) gen8_desc0 1 = 0 ∧
      loadField idrt_bdw (4 * 1) gen8_desc1 0 = 0 ∧
      loadField idrt_bdw (4 * 3) gen8_desc3 2 = 0 ∧
      loadField idrt_bdw (4 * 4) gen8_desc4 1 = 0 ∧
      wordsOf state_data_bdw IDRT_OFFSET 8 = wordsOf idrt_bdw 0 8) ∧
    (sizeofWords gen6_interface_descriptor_t = 32 ∧
      wordsOf idrt_hsw 0 8 = [0, 0, 0, 0, 0x00080000, 0x00010000, 0, 0] ∧
      loadField idrt_hsw (4 * 4) gen6_desc4 1 = 8 ∧
      loadField idrt_hsw (4 * 4) gen6_desc4 0 = 0 ∧
      loadField idrt_hsw (4 * 5) gen6_desc5 2 = 1 ∧
      loadField idrt_hsw (4 * 5) gen6_desc5 0 = 0 ∧
      loadField idrt_hsw (4 * 0) gen6_desc0 1 = 0 ∧
      loadField idrt_hsw (4 * 2) gen6_desc2 2 = 0 ∧
      loadField idrt_hsw (4 * 3) gen6_desc3 1 = 0 ∧
      wordsOf state_data_hsw IDRT_OFFSET 8 = wordsOf idrt_hsw 0 8) ∧
    (8 * GRF_BYTES = 256 ∧
      loadField idrt_bdw (4 * 5) gen8_desc5 1 * GRF_BYTES = 256 ∧
      loadField idrt_hsw (4 * 4) gen6_desc4 1 * GRF_BYTES = 256 ∧
      (local_id_stores 0).map (fun av => av.1) =
        (List.range 64).map (fun v => 256 * (v / 16) + 4 * (8 + v % 16)) ∧
      ((curb_stores_hsw 0).filter (fun av => av.2 == 64)).map (fun av => av.1) =
        (List.range 4).map (fun i => 256 * i + 4 * 60)) := by
  decide


/-! ### C22: relocated words as placeholders -/

set_option maxRecDepth 1000000 in
/-- Claim C22 on the code: in example_hsw.c the relocation of the output
buffer for CURBE group 0 has its source at byte CURB_OFFSET + 240, word 60
of the group, where setup_curb has stored the thread count 64, while its
target offset is 0; the same holds for the other three groups.  These four
are the only relocations whose source word differs from the target offset:
the words relocated by example_bdw.c are 0 in the state array and 0x781 in
the batch, and the other words relocated by example_hsw.c are 0 in the state
array and 0x551, CURB_OFFSET, IDRT_OFFSET in the batch. -/
theorem C22_hsw_output_relocation_hits_count_word :
    ((⟨.state_buffer, CURB_OFFSET + 0 * 256 + sizeof_uint32_t * 58 + 8, .output_buffer,
        0, 2, 2⟩ : Reloc) ∈ relocsOf main_hsw ∧
      CURB_OFFSET + 0 * 256 + sizeof_uint32_t * 58 + 8 = CURB_OFFSET + 4 * (64 * 0 + 60) ∧
      sourceWord setup_batch state_data_hsw
        ⟨.state_buffer, CURB_OFFSET + 0 * 256 + sizeof_uint32_t * 58 + 8, .output_buffer,
          0, 2, 2⟩ = 64 ∧
      load32 (setup_curb CURB_OFFSET zeroMem) (CURB_OFFSET + 4 * (64 * 0 + 60)) = 64) ∧
    (relocsNotPlaceholder main_hsw setup_batch state_data_hsw =
        [ ⟨.state_buffer, CURB_OFFSET + 0 * 256 + 4 * 60, .output_buffer, 0, 2, 2⟩,
          ⟨.state_buffer, CURB_OFFSET + 1 * 256 + 4 * 60, .output_buffer, 0, 2, 2⟩,
          ⟨.state_buffer, CURB_OFFSET + 2 * 256 + 4 * 60, .output_buffer, 0, 2, 2⟩,
          ⟨.state_buffer, CURB_OFFSET + 3 * 256 + 4 * 60, .output_buffer, 0, 2, 2⟩ ] ∧
      (relocsOf main_hsw).map (sourceWord setup_batch state_data_hsw) =
        [0, 0, 0, 0, 64, 0, 64, 0, 64, 0, 64, 0x551, CURB_OFFSET, IDRT_OFFSET] ∧
      (relocsOf main_hsw).map (fun r => r.target_offset) =
        [0, 0, 0, 0, 0, 0, 0, 0, 0, 0, 0, 0x551, CURB_OFFSET, IDRT_OFFSET]) ∧
    (relocsNotPlaceholder main_bdw setup_batch0 state_data_bdw = [] ∧
      (relocsOf main_bdw).map (sourceWord setup_batch0 state_data_bdw) =
        [0, 0, 0, 0, 0, 0, 0, 0, 0, 0, 0x781, 0x781, 0x781] ∧
      (relocsOf main_bdw).map (fun r => r.target_offset) =
        [0, 0, 0, 0, 0, 0, 0, 0, 0, 0, 0x781, 0x781, 0x781]) ∧
    ((relocsOf main_bdw).map (fun r => r.offset % 4) = List.replicate 13 0 ∧
      (relocsOf main_hsw).map (fun r => r.offset % 4) = List.replicate 14 0) := by
  decide

end GpgpuExamples
